import Mathlib

/-!
# OAuth2Service (network-web/oauth2service.cpp): a shallow embedding

The token manager of RSS Guard is embedded as pure functions over an explicit
state record.  Every member function that reads the clock takes the value of
`QDateTime::currentDateTime()` as the argument `now`; every member function
with an observable side effect (a notification, an HTTP POST, the login page,
an emitted signal) returns the list of those effects in the order the source
performs them.

Qt types are modelled by their documented behaviour:

* `QString` is `String`; the null string `QString()` is `""`.
* `QDateTime` is `Option Int`: `none` is the null date-time `QDateTime()`,
  `some t` is a valid one, `t` milliseconds after the epoch.
* `QJsonValue`, `QJsonObject`, `QJsonDocument` are the obvious trees.
* the timers of the `QObject` are the list of identifiers that are running.

The namespace `Gui` embeds the application icon badge
(gui/applicationiconbadge.cpp) and the closing and renumbering of tabs in the
tab widget (gui/tabwidget.cpp); a tab is its widget, its type and the index
its content stores.
-/

set_option autoImplicit false

namespace OAuth2

/-! ## QString -/

/-- `QString::isEmpty()`. -/
def isEmpty (s : String) : Bool := s.data.isEmpty

namespace QString

/-- Value of an ASCII decimal digit, as `QChar::digitValue()` gives it for the
characters `0` to `9`; `none` stands for its result -1. -/
def digitValue (c : Char) : Option Nat :=
  if 48 ≤ c.toNat ∧ c.toNat ≤ 57 then some (c.toNat - 48) else none

/-- A format string as `QString::arg` reads it: plain characters and place
markers (`%1`, `%L1`, `%12`), each marker with its number and its own text. -/
inductive ArgPart
  | text (c : Char)
  | escape (number : Nat) (raw : List Char)
  deriving DecidableEq, Repr

/-- Where the left-to-right scan of a format string stands: outside a marker,
after `%`, after `%L`, or inside the digits of a marker. -/
inductive ScanState
  | idle
  | percent
  | percentL
  | digits (raw : List Char) (value : Nat) (count : Nat)
  deriving DecidableEq, Repr

/-- The two marker grammars of Qt: `arg(a)` reads at most two digits after
`%` or `%L`; the several-argument `arg(a1, a2, ...)` reads every digit that
follows and accepts the marker when its number is at most 999. -/
structure ArgGrammar where
  maxDigits : Option Nat
  maxNumber : Nat
  deriving DecidableEq, Repr

/-- Grammar of `QString::arg(const QString &)`. -/
def singleArg : ArgGrammar := { maxDigits := some 2, maxNumber := 99 }

/-- Grammar of `QString::arg(const QString &, const QString &, ...)`. -/
def severalArgs : ArgGrammar := { maxDigits := none, maxNumber := 999 }

/-- What the scan has read but not yet given out, when the marker it was
reading ends here. -/
def flush (g : ArgGrammar) : ScanState → List ArgPart
  | .idle => []
  | .percent => [.text '%']
  | .percentL => [.text '%', .text 'L']
  | .digits raw value _ =>
    if value ≤ g.maxNumber then [.escape value raw] else raw.map .text

/-- One character read outside a marker. -/
def stepIdle (c : Char) : List ArgPart × ScanState :=
  if c = '%' then ([], .percent) else ([.text c], .idle)

/-- Whether a marker that has `count` digits may take one more. -/
def mayExtend (g : ArgGrammar) (count : Nat) : Bool :=
  match g.maxDigits with
  | none => true
  | some m => decide (count < m)

/-- One character of the scan.  A character that cannot continue the marker
being read ends it and is then read again from outside a marker, as the Qt
loops do. -/
def step (g : ArgGrammar) (st : ScanState) (c : Char) : List ArgPart × ScanState :=
  match st with
  | .idle => stepIdle c
  | .percent =>
    if c = 'L' then ([], .percentL)
    else
      match digitValue c with
      | some v => ([], .digits ['%', c] v 1)
      | none => (flush g st ++ (stepIdle c).1, (stepIdle c).2)
  | .percentL =>
    match digitValue c with
    | some v => ([], .digits ['%', 'L', c] v 1)
    | none => (flush g st ++ (stepIdle c).1, (stepIdle c).2)
  | .digits raw value count =>
    match digitValue c with
    | some v =>
      if mayExtend g count then ([], .digits (raw ++ [c]) (10 * value + v) (count + 1))
      else (flush g st ++ (stepIdle c).1, (stepIdle c).2)
    | none => (flush g st ++ (stepIdle c).1, (stepIdle c).2)

/-- The scan of a format string from a given state. -/
def scan (g : ArgGrammar) : ScanState → List Char → List ArgPart
  | st, [] => flush g st
  | st, c :: cs => (step g st c).1 ++ scan g (step g st c).2 cs

/-- The parts of a format string (`findArgEscapes` in Qt). -/
def findArgEscapes (g : ArgGrammar) (s : List Char) : List ArgPart :=
  scan g .idle s

/-- The lowest marker number among the parts, if there is a marker. -/
def minEscape : List ArgPart → Option Nat
  | [] => none
  | .text _ :: ps => minEscape ps
  | .escape n _ :: ps =>
    match minEscape ps with
    | none => some n
    | some m => some (min n m)

/-- Every marker with number `m` becomes `a`; all else is copied
(`replaceArgEscapes` in Qt). -/
def replaceArgEscapes (m : Nat) (a : List Char) : List ArgPart → List Char
  | [] => []
  | .text c :: ps => c :: replaceArgEscapes m a ps
  | .escape n raw :: ps => (if n = m then a else raw) ++ replaceArgEscapes m a ps

/-- `QString::arg(const QString &a)`: every occurrence of the lowest-numbered
place marker is replaced by `a`; a string without a marker is returned as it
is. -/
def arg (s a : String) : String :=
  match minEscape (findArgEscapes singleArg s.data) with
  | none => s
  | some m => String.mk (replaceArgEscapes m a.data (findArgEscapes singleArg s.data))

/-- Insertion into an ascending list without repetition. -/
def insertSorted (n : Nat) : List Nat → List Nat
  | [] => [n]
  | m :: ms =>
    if n < m then n :: m :: ms
    else if n = m then m :: ms
    else m :: insertSorted n ms

/-- The distinct marker numbers of the parts, ascending. -/
def numbersUsed : List ArgPart → List Nat
  | [] => []
  | .text _ :: ps => numbersUsed ps
  | .escape n _ :: ps => insertSorted n (numbersUsed ps)

/-- One pass over the parts: the marker with the k-th lowest number becomes
the k-th argument; a marker beyond the arguments is copied. -/
def replaceSeveral (used : List Nat) (args : List String) : List ArgPart → List Char
  | [] => []
  | .text c :: ps => c :: replaceSeveral used args ps
  | .escape n raw :: ps =>
    (match args.get? (used.indexOf n) with
      | some a => a.data
      | none => raw) ++ replaceSeveral used args ps

/-- `QString::arg(a1, a2, ...)` with several string arguments: the markers are
replaced in one pass, so text that comes from an argument is never read as a
marker. -/
def multiArg (s : String) (args : List String) : String :=
  String.mk (replaceSeveral (numbersUsed (findArgEscapes severalArgs s.data)) args
    (findArgEscapes severalArgs s.data))

/-- `QString::number(int)`: the decimal text of a number. -/
def number (n : Int) : String := toString n

end QString

/-- `QObject::tr`: the text of the source language; no translation is
installed. -/
def tr (sourceText : String) : String := sourceText

/-! ## QDateTime -/

/-- Qt date-time: `none` is the null `QDateTime()`, `some t` a valid instant,
`t` milliseconds since the epoch. -/
abbrev QDateTime := Option Int

namespace QDateTime

/-- `QDateTime::isNull()`. -/
def isNull (d : QDateTime) : Bool :=
  match d with
  | none => true
  | some _ => false

/-- `QDateTime::operator<`: an invalid date-time is earlier than every valid
one and not earlier than another invalid one. -/
def lt (a b : QDateTime) : Bool :=
  match a, b with
  | none, none => false
  | none, some _ => true
  | some _, none => false
  | some x, some y => decide (x < y)

/-- `QDateTime::operator>` is `operator<` with the operands swapped. -/
def gt (a b : QDateTime) : Bool := lt b a

/-- `QDateTime::addSecs(s)`: an invalid date-time stays invalid, a valid one
moves by `s` seconds, that is `1000 * s` milliseconds. -/
def addSecs (d : QDateTime) (s : Int) : QDateTime :=
  match d with
  | none => none
  | some t => some (t + 1000 * s)

/-- `QDateTime::currentDateTime()`: always valid; the clock reading is an
input of every operation that asks for it. -/
def currentDateTime (now : Int) : QDateTime := some now

end QDateTime

/-! ## QObject timers -/

/-- `QObject::killTimer(id)`: the timer with that identifier stops running;
an identifier that is not running leaves the timers as they are. -/
def killTimer (id : Int) (running : List Int) : List Int :=
  running.filter (fun t => t != id)

/-- Identifier handed out by `QObject::startTimer`: positive and different
from every identifier that is running. -/
def freshTimerId (running : List Int) : Int :=
  running.foldl max 0 + 1

/-- `QObject::startTimer(interval, type)`: returns the new identifier and the
running timers with it added.  The interval and the timer type do not enter
any decision of the service. -/
def startTimer (running : List Int) : Int × List Int :=
  (freshTimerId running, freshTimerId running :: running)

/-! ## The service state -/

/-- Data members of `OAuth2Service`, plus the running timers of its `QObject`
base. -/
structure OAuth2Service where
  m_timerId : Int
  m_tokensExpireIn : QDateTime
  m_accessToken : String
  m_refreshToken : String
  m_redirectUrl : String
  m_tokenGrantType : String
  m_clientId : String
  m_clientSecret : String
  m_tokenUrl : String
  m_authUrl : String
  m_scope : String
  runningTimers : List Int
  deriving DecidableEq, Repr

namespace OAuth2Service

/-- `OAuth2Service::accessToken()`. -/
def accessToken (s : OAuth2Service) : String := s.m_accessToken

/-- `OAuth2Service::setAccessToken`. -/
def setAccessToken (s : OAuth2Service) (access_token : String) : OAuth2Service :=
  { s with m_accessToken := access_token }

/-- `OAuth2Service::tokensExpireIn()`. -/
def tokensExpireIn (s : OAuth2Service) : QDateTime := s.m_tokensExpireIn

/-- `OAuth2Service::setTokensExpireIn`. -/
def setTokensExpireIn (s : OAuth2Service) (tokens_expire_in : QDateTime) : OAuth2Service :=
  { s with m_tokensExpireIn := tokens_expire_in }

/-- `OAuth2Service::refreshToken()`. -/
def refreshToken (s : OAuth2Service) : String := s.m_refreshToken

/-- `OAuth2Service::isFullyLoggedIn()`. -/
def isFullyLoggedIn (s : OAuth2Service) (now : Int) : Bool :=
  let is_expiration_valid := QDateTime.gt s.tokensExpireIn (QDateTime.currentDateTime now)
  let do_tokens_exist := !isEmpty s.refreshToken && !isEmpty s.accessToken
  is_expiration_valid && do_tokens_exist

/-- `OAuth2Service::oAuthTokenGrantType()`. -/
def oAuthTokenGrantType (s : OAuth2Service) : String := s.m_tokenGrantType

/-- `OAuth2Service::setOAuthTokenGrantType`. -/
def setOAuthTokenGrantType (s : OAuth2Service) (grant_type : String) : OAuth2Service :=
  { s with m_tokenGrantType := grant_type }

/-- `OAuth2Service::clientSecret()`. -/
def clientSecret (s : OAuth2Service) : String := s.m_clientSecret

/-- `OAuth2Service::setClientSecret`. -/
def setClientSecret (s : OAuth2Service) (client_secret : String) : OAuth2Service :=
  { s with m_clientSecret := client_secret }

/-- `OAuth2Service::clientId()`. -/
def clientId (s : OAuth2Service) : String := s.m_clientId

/-- `OAuth2Service::setClientId`. -/
def setClientId (s : OAuth2Service) (client_id : String) : OAuth2Service :=
  { s with m_clientId := client_id }

/-- `OAuth2Service::redirectUrl()`. -/
def redirectUrl (s : OAuth2Service) : String := s.m_redirectUrl

/-- `OAuth2Service::setRedirectUrl`. -/
def setRedirectUrl (s : OAuth2Service) (redirect_url : String) : OAuth2Service :=
  { s with m_redirectUrl := redirect_url }

/-- `OAuth2Service::killRefreshTimer()`. -/
def killRefreshTimer (s : OAuth2Service) : OAuth2Service :=
  { s with runningTimers := killTimer s.m_timerId s.runningTimers }

/-- `OAuth2Service::startRefreshTimer()`. -/
def startRefreshTimer (s : OAuth2Service) : OAuth2Service :=
  if !isEmpty s.refreshToken then
    { s with m_timerId := (startTimer s.runningTimers).1,
             runningTimers := (startTimer s.runningTimers).2 }
  else s

/-- `OAuth2Service::setRefreshToken`. -/
def setRefreshToken (s : OAuth2Service) (refresh_token : String) : OAuth2Service :=
  startRefreshTimer { killRefreshTimer s with m_refreshToken := refresh_token }

/-- `OAuth2Service::logout()`. -/
def logout (s : OAuth2Service) : OAuth2Service :=
  ((s.setTokensExpireIn none).setAccessToken "").setRefreshToken ""

/-- The refresh timer of the service is the running timer whose identifier is
`m_timerId`: it is the only one `timerEvent` answers to. -/
def refreshTimerArmed (s : OAuth2Service) : Bool :=
  decide (s.m_timerId ∈ s.runningTimers)

end OAuth2Service

/-! ## Effects -/

/-- `QSystemTrayIcon::MessageIcon` values the service uses. -/
inductive MessageIcon
  | Information
  | Critical
  deriving DecidableEq, Repr

/-- What a click on a notification runs. -/
inductive Callback
  | login
  deriving DecidableEq, Repr

/-- Calls the service makes to its collaborators and signals it emits.
`showGuiMessage`: `qApp->showGuiMessage(title, message, icon, ..., functor)`;
`post`: `m_networkManager.post(request, content)` with the URL and the
content type of the request; `loginPage`: `login_page.login(auth_url,
redirect)`; the others are the signals of the class. -/
inductive Effect
  | showGuiMessage (title message : String) (icon : MessageIcon) (functor : Option Callback)
  | post (url contentType content : String)
  | loginPage (authUrl redirectUrl : String)
  | tokensRetrieveError (error errorDescription : String)
  | tokensReceived (accessToken refreshToken : String) (expiresIn : Int)
  | authFailed
  | authCodeObtained (authCode : String)
  deriving DecidableEq, Repr

namespace Effect

/-- A request to the token endpoint. -/
def isPost : Effect → Bool
  | .post _ _ _ => true
  | _ => false

/-- An interactive authorization request. -/
def isLoginPage : Effect → Bool
  | .loginPage _ _ => true
  | _ => false

/-- A notification. -/
def isGuiMessage : Effect → Bool
  | .showGuiMessage _ _ _ _ => true
  | _ => false

/-- A tokens-received event. -/
def isTokensReceived : Effect → Bool
  | .tokensReceived _ _ _ => true
  | _ => false

/-- A token-error event. -/
def isTokensRetrieveError : Effect → Bool
  | .tokensRetrieveError _ _ => true
  | _ => false

end Effect

/-! ## JSON -/

/-- `QJsonValue`: a value of one of the JSON types, or `undefined`, which is
what `QJsonObject::value` returns for a key that is absent.  Qt keeps a number
as a double; every finite double is a rational number. -/
inductive QJsonValue
  | null
  | bool (b : Bool)
  | double (d : ℚ)
  | string (s : String)
  | array (a : List QJsonValue)
  | object (o : List (String × QJsonValue))
  | undefined

/-- `QJsonObject`: the members, key and value. -/
abbrev QJsonObject := List (String × QJsonValue)

/-- Least value of the C++ type `int`. -/
def INT_MIN : Int := -2147483648

/-- Greatest value of the C++ type `int`. -/
def INT_MAX : Int := 2147483647

namespace QJsonValue

/-- `QJsonValue::toString()`: the string of a string value, the null string
for a value of any other type. -/
def toString : QJsonValue → String
  | .string s => s
  | _ => ""

/-- `QJsonValue::toInt()`: the number when the value is a number, whole and
within the range of `int`; the default 0 otherwise. -/
def toInt : QJsonValue → Int
  | .double d => if d.den = 1 ∧ INT_MIN ≤ d.num ∧ d.num ≤ INT_MAX then d.num else 0
  | _ => 0

end QJsonValue

namespace QJsonObject

/-- `QJsonObject::keys()`. -/
def keys (o : QJsonObject) : List String := o.map Prod.fst

/-- `QJsonObject::value(key)`: the value of the member with that key,
`undefined` when there is none. -/
def value : QJsonObject → String → QJsonValue
  | [], _ => QJsonValue.undefined
  | (k, v) :: rest, key => if k = key then v else value rest key

end QJsonObject

/-- `QJsonDocument`: what `QJsonDocument::fromJson` makes of the bytes of a
reply.  Bytes that are not JSON (the empty reply of a failed request among
them) give the null document; otherwise the document is an array or an
object. -/
inductive QJsonDocument
  | null
  | ofArray (a : List QJsonValue)
  | ofObject (o : QJsonObject)

namespace QJsonDocument

/-- `QJsonDocument::object()`: the object of the document, an empty object
when the document holds none. -/
def object : QJsonDocument → QJsonObject
  | .ofObject o => o
  | _ => []

end QJsonDocument

namespace OAuth2Service

/-- `OAuth2Service::bearer()`: the returned string, the state and the
effects. -/
def bearer (s : OAuth2Service) (now : Int) : String × OAuth2Service × List Effect :=
  if !s.isFullyLoggedIn now then
    ("", s, [Effect.showGuiMessage (tr "Inoreader: you have to login first")
            (tr "Click here to login.") MessageIcon.Critical (some Callback.login)])
  else
    (QString.arg "Bearer %1" s.accessToken, s, [])

/-- `OAuth2Service::retrieveAccessToken(auth_code)`. -/
def retrieveAccessToken (s : OAuth2Service) (auth_code : String) :
    OAuth2Service × List Effect :=
  let content :=
    QString.arg (QString.arg (QString.arg (QString.arg (QString.arg
      "client_id=%1&client_secret=%2&code=%3&redirect_uri=%5&grant_type=%4"
      s.m_clientId) s.m_clientSecret) auth_code) s.m_tokenGrantType) s.m_redirectUrl
  (s, [Effect.post s.m_tokenUrl "application/x-www-form-urlencoded" content])

/-- `OAuth2Service::refreshAccessToken(refresh_token)`.  The call without an
argument passes the null string. -/
def refreshAccessToken (s : OAuth2Service) (refresh_token : String) :
    OAuth2Service × List Effect :=
  let refresh_token := if isEmpty refresh_token then s.refreshToken else refresh_token
  let content :=
    QString.arg (QString.arg (QString.arg (QString.arg
      "client_id=%1&client_secret=%2&refresh_token=%3&grant_type=%4"
      s.m_clientId) s.m_clientSecret) refresh_token) "refresh_token"
  (s, [Effect.showGuiMessage (tr "Logging in via OAuth 2.0...")
        (QString.arg (tr "Refreshing login tokens for '%1'...") s.m_tokenUrl)
        MessageIcon.Information none,
      Effect.post s.m_tokenUrl "application/x-www-form-urlencoded" content])

/-- `OAuth2Service::retrieveAuthCode()`: the notification and the call of the
login page.  What the login page reports back arrives through its signals
`authGranted` and `authRejected`. -/
def retrieveAuthCode (s : OAuth2Service) : OAuth2Service × List Effect :=
  let auth_url := s.m_authUrl ++
    QString.multiArg "?client_id=%1&scope=%2&redirect_uri=%3&response_type=code&state=abcdef"
      [s.m_clientId, s.m_scope, s.m_redirectUrl]
  (s, [Effect.showGuiMessage (tr "Logging in via OAuth 2.0...")
        (QString.arg (tr "Requesting access authorization for '%1'...") s.m_authUrl)
        MessageIcon.Information none,
      Effect.loginPage auth_url s.m_redirectUrl])

/-- `OAuth2Service::login()`: the returned flag, the state and the effects. -/
def login (s : OAuth2Service) (now : Int) : Bool × OAuth2Service × List Effect :=
  let did_token_expire := QDateTime.isNull s.tokensExpireIn ||
    QDateTime.lt s.tokensExpireIn (QDateTime.currentDateTime now)
  let does_token_exist := !isEmpty s.refreshToken
  if does_token_exist && did_token_expire then
    (false, s.refreshAccessToken "")
  else if !does_token_exist then
    (false, s.retrieveAuthCode)
  else
    (true, s, [])

/-- `OAuth2Service::tokenRequestFinished(network_reply)`: `json_document` is
`QJsonDocument::fromJson(network_reply->readAll())`. -/
def tokenRequestFinished (s : OAuth2Service) (now : Int) (json_document : QJsonDocument) :
    OAuth2Service × List Effect :=
  let root_obj := json_document.object
  if root_obj.keys.contains "error" then
    let error := (root_obj.value "error").toString
    let error_description := (root_obj.value "error_description").toString
    let s1 := s.logout
    (s1, [Effect.tokensRetrieveError error error_description])
  else
    let expires := (root_obj.value "expires_in").toInt
    let s1 := s.setTokensExpireIn (QDateTime.addSecs (QDateTime.currentDateTime now) expires)
    let s2 := s1.setAccessToken (root_obj.value "access_token").toString
    let s3 := s2.setRefreshToken (root_obj.value "refresh_token").toString
    (s3, [Effect.tokensReceived s3.accessToken s3.refreshToken expires])

/-- `OAuth2Service::timerEvent(event)`: `timerId` is `event->timerId()`.  The
base `QObject::timerEvent` does nothing. -/
def timerEvent (s : OAuth2Service) (now : Int) (timerId : Int) :
    OAuth2Service × List Effect :=
  if decide (0 ≤ s.m_timerId) && decide (timerId = s.m_timerId) then
    let window_about_expire := QDateTime.addSecs s.tokensExpireIn (-60 * 15)
    if QDateTime.lt window_about_expire (QDateTime.currentDateTime now) then
      s.refreshAccessToken ""
    else
      (s, [])
  else
    (s, [])

/-- The login page reports `authGranted(auth_code)`: `retrieveAuthCode`
connects it to the signal `authCodeObtained`, which the constructor connects
to `retrieveAccessToken`. -/
def authGranted (s : OAuth2Service) (auth_code : String) : OAuth2Service × List Effect :=
  ((s.retrieveAccessToken auth_code).1,
    Effect.authCodeObtained auth_code :: (s.retrieveAccessToken auth_code).2)

/-- The login page reports `authRejected()`: the functor `retrieveAuthCode`
connects to it calls `logout()` and emits `authFailed()`. -/
def authRejected (s : OAuth2Service) : OAuth2Service × List Effect :=
  (s.logout, [Effect.authFailed])

/-- The constructor `OAuth2Service::OAuth2Service(authUrl, tokenUrl, clientId,
clientSecret, scope)`.  `redirect` is the value of the macro
`INOREADER_OAUTH_CLI_REDIRECT`, which services/inoreader/definitions.h
defines. -/
def construct (redirect authUrl tokenUrl clientId clientSecret scope : String) :
    OAuth2Service :=
  { m_timerId := -1
    m_tokensExpireIn := none
    m_accessToken := ""
    m_refreshToken := ""
    m_redirectUrl := redirect
    m_tokenGrantType := "authorization_code"
    m_clientId := clientId
    m_clientSecret := clientSecret
    m_tokenUrl := tokenUrl
    m_authUrl := authUrl
    m_scope := scope
    runningTimers := [] }

/-- A freshly constructed service, the start of the worked examples. -/
def fresh : OAuth2Service :=
  construct "http://localhost" "https://example.org/auth" "https://example.org/token"
    "id" "secret" "read"

/-- The fresh service with the three credential fields set, as the setters
`setAccessToken`, `setRefreshToken` and `setTokensExpireIn` leave it. -/
def withTokens (access_token refresh_token : String) (tokens_expire_in : QDateTime) :
    OAuth2Service :=
  ((fresh.setTokensExpireIn tokens_expire_in).setAccessToken access_token).setRefreshToken
    refresh_token

/-- What can happen to a service after its construction: a call of one of
its member functions, the reply of the token endpoint, a timer event, or a
report of the login page. -/
inductive Operation
  | setAccessToken (access_token : String)
  | setTokensExpireIn (tokens_expire_in : QDateTime)
  | setClientSecret (client_secret : String)
  | setClientId (client_id : String)
  | setRedirectUrl (redirect_url : String)
  | setRefreshToken (refresh_token : String)
  | setOAuthTokenGrantType (grant_type : String)
  | bearer (now : Int)
  | login (now : Int)
  | logout
  | retrieveAccessToken (auth_code : String)
  | refreshAccessToken (refresh_token : String)
  | retrieveAuthCode
  | tokenRequestFinished (now : Int) (json_document : QJsonDocument)
  | timerEvent (now : Int) (timerId : Int)
  | authGranted (auth_code : String)
  | authRejected

/-- The state after one operation. -/
def Operation.apply (s : OAuth2Service) : Operation → OAuth2Service
  | .setAccessToken access_token => s.setAccessToken access_token
  | .setTokensExpireIn tokens_expire_in => s.setTokensExpireIn tokens_expire_in
  | .setClientSecret client_secret => s.setClientSecret client_secret
  | .setClientId client_id => s.setClientId client_id
  | .setRedirectUrl redirect_url => s.setRedirectUrl redirect_url
  | .setRefreshToken refresh_token => s.setRefreshToken refresh_token
  | .setOAuthTokenGrantType grant_type => s.setOAuthTokenGrantType grant_type
  | .bearer now => (s.bearer now).2.1
  | .login now => (s.login now).2.1
  | .logout => s.logout
  | .retrieveAccessToken auth_code => (s.retrieveAccessToken auth_code).1
  | .refreshAccessToken refresh_token => (s.refreshAccessToken refresh_token).1
  | .retrieveAuthCode => s.retrieveAuthCode.1
  | .tokenRequestFinished now json_document => (s.tokenRequestFinished now json_document).1
  | .timerEvent now timerId => (s.timerEvent now timerId).1
  | .authGranted auth_code => (s.authGranted auth_code).1
  | .authRejected => s.authRejected.1

/-- The state after a sequence of operations, first to last. -/
def run (s : OAuth2Service) (ops : List Operation) : OAuth2Service :=
  ops.foldl Operation.apply s

/-- The running timers are the refresh timer alone when the refresh token is
non-empty, and none when it is empty. -/
def timersMatchToken (s : OAuth2Service) : Prop :=
  s.runningTimers = if isEmpty s.m_refreshToken then [] else [s.m_timerId]

end OAuth2Service

/-! ## application/x-www-form-urlencoded

The parser a server applies to the body of the token request, as the URL
standard gives it: the body is split at every `&`; an empty piece is skipped;
a piece is split at its first `=` into name and value (a piece without `=` is
a name with an empty value); in both, `+` becomes a space and then every `%`
followed by two hexadecimal digits becomes the character with that code.  A
decoded byte above 127 is kept as one character. -/

namespace FormUrlEncoded

/-- The pieces of a text between the occurrences of a separator. -/
def splitOn (sep : Char) : List Char → List (List Char)
  | [] => [[]]
  | c :: rest =>
    if c = sep then [] :: splitOn sep rest
    else
      match splitOn sep rest with
      | [] => [[c]]
      | piece :: pieces => (c :: piece) :: pieces

/-- The text before the first `=`, and the text after it when there is one. -/
def splitAtEquals : List Char → List Char × Option (List Char)
  | [] => ([], none)
  | c :: rest =>
    if c = '=' then ([], some rest)
    else (c :: (splitAtEquals rest).1, (splitAtEquals rest).2)

/-- Every `+` becomes a space. -/
def plusToSpace (text : List Char) : List Char :=
  text.map (fun c => if c = '+' then ' ' else c)

/-- Value of a hexadecimal digit. -/
def hexValue (c : Char) : Option Nat :=
  if 48 ≤ c.toNat ∧ c.toNat ≤ 57 then some (c.toNat - 48)
  else if 65 ≤ c.toNat ∧ c.toNat ≤ 70 then some (c.toNat - 55)
  else if 97 ≤ c.toNat ∧ c.toNat ≤ 102 then some (c.toNat - 87)
  else none

/-- Where percent-decoding stands: outside a sequence, after `%`, or after `%`
and one hexadecimal digit. -/
inductive PercentState
  | idle
  | percent
  | percentHex (digit : Char) (value : Nat)
  deriving DecidableEq, Repr

/-- One character read outside a percent sequence. -/
def percentIdle (c : Char) : List Char × PercentState :=
  if c = '%' then ([], .percent) else ([c], .idle)

/-- One character of percent-decoding.  A `%` that is not followed by two
hexadecimal digits stays as it is, and decoding goes on with the character
after it. -/
def percentStep (st : PercentState) (c : Char) : List Char × PercentState :=
  match st with
  | .idle => percentIdle c
  | .percent =>
    match hexValue c with
    | some v => ([], .percentHex c v)
    | none => ('%' :: (percentIdle c).1, (percentIdle c).2)
  | .percentHex digit value =>
    match hexValue c with
    | some w => ([Char.ofNat (16 * value + w)], .idle)
    | none => ('%' :: digit :: (percentIdle c).1, (percentIdle c).2)

/-- What is left over when the text ends inside a percent sequence. -/
def percentFlush : PercentState → List Char
  | .idle => []
  | .percent => ['%']
  | .percentHex digit _ => ['%', digit]

/-- Percent-decoding from a given state. -/
def percentDecodeFrom : PercentState → List Char → List Char
  | st, [] => percentFlush st
  | st, c :: cs => (percentStep st c).1 ++ percentDecodeFrom (percentStep st c).2 cs

/-- Percent-decoding of a text. -/
def percentDecode (text : List Char) : List Char :=
  percentDecodeFrom .idle text

/-- Name or value of a piece, decoded. -/
def decodeText (text : List Char) : String :=
  String.mk (percentDecode (plusToSpace text))

/-- Name and value of one piece. -/
def parsePiece (piece : List Char) : String × String :=
  (decodeText (splitAtEquals piece).1, decodeText ((splitAtEquals piece).2.getD []))

/-- The name-value pairs of a body, in order. -/
def parse (body : String) : List (String × String) :=
  ((splitOn '&' body.data).filter (fun piece => !piece.isEmpty)).map parsePiece

/-- A value with none of the characters `&`, `%` and `+`. -/
def isPlain (value : String) : Bool :=
  value.data.all (fun c => c != '&' && c != '%' && c != '+')

end FormUrlEncoded

/-- The body of a request to the token endpoint. -/
def Effect.content : Effect → Option String
  | .post _ _ content => some content
  | _ => none

end OAuth2

/-! # The application icon badge and the tab widget (gui/) -/

namespace Gui

/-! ## ApplicationIconBadge (gui/applicationiconbadge.cpp)

`Q_OS_MAC` says whether the file is compiled with that macro defined;
`setting` is the value of the application setting `GUI::ApplicationIconBadge`,
read with `toBool()`. -/

namespace ApplicationIconBadge

/-- `ApplicationIconBadge::isApplicationIconBadgeAvailable()`. -/
def isApplicationIconBadgeAvailable (Q_OS_MAC : Bool) : Bool :=
  if Q_OS_MAC then true else false

/-- `ApplicationIconBadge::isApplicationIconBadgeActivated()`. -/
def isApplicationIconBadgeActivated (Q_OS_MAC setting : Bool) : Bool :=
  isApplicationIconBadgeAvailable Q_OS_MAC && setting

/-- `ApplicationIconBadge::setNumber(number, any_new_message)`: the texts
handed to `QtMac::setBadgeLabelText`, in order.  The second parameter is
unused. -/
def setNumber (Q_OS_MAC setting : Bool) (number : Int) : List String :=
  if Q_OS_MAC then
    if setting && decide (number > 0) then [OAuth2.QString.number number] else [""]
  else []

end ApplicationIconBadge

/-! ## TabWidget (gui/tabwidget.cpp) -/

/-- `TabBar::TabType`, declared in gui/tabbar.h: the three values the source
names, and `other` for any further value, among them the value read for an
index that has no tab. -/
inductive TabType
  | FeedReader
  | DownloadManager
  | Closable
  | other (value : Int)
  deriving DecidableEq, Repr

/-- One tab: which widget it shows, its type in the tab bar, and the index its
content stores (`TabContent::setIndex`). -/
structure Tab where
  widget : Nat
  type : TabType
  index : Int
  deriving DecidableEq, Repr

/-- What identifies a tab apart from the stored index. -/
def Tab.ident (t : Tab) : Nat × TabType := (t.widget, t.type)

namespace TabWidget

/-- `QTabWidget::count()`. -/
def count (tabs : List Tab) : Int := tabs.length

/-- `tabBar()->tabType(index)`. -/
def tabType (tabs : List Tab) (index : Int) : TabType :=
  if 0 ≤ index then
    match tabs.get? index.toNat with
    | some t => t.type
    | none => TabType.other 0
  else TabType.other 0

/-- `static_cast<TabContent*>(widget(position))->setIndex(position)`; `none`
when there is no widget at the position, where the source dereferences a null
pointer. -/
def setIndex (tabs : List Tab) (position : Int) : Option (List Tab) :=
  if 0 ≤ position then
    match tabs.get? position.toNat with
    | some t => some (tabs.set position.toNat { t with index := position })
    | none => none
  else none

/-- The loop of `fixContentsAfterMove`, with the number of rounds left. -/
def fixContentsLoop : Nat → Int → List Tab → Option (List Tab)
  | 0, _, tabs => some tabs
  | rounds + 1, from_, tabs =>
    match setIndex tabs from_ with
    | none => none
    | some fixed => fixContentsLoop rounds (from_ + 1) fixed

/-- `TabWidget::fixContentsAfterMove(from, to)`.  As in the source, `to` is
computed from the value `from` has after its own assignment. -/
def fixContentsAfterMove (tabs : List Tab) (from_ to_ : Int) : Option (List Tab) :=
  let from_ := min from_ to_
  let to_ := max from_ to_
  fixContentsLoop (to_ - from_ + 1).toNat from_ tabs

/-- `TabWidget::tabRemoved(index)`, which `QTabWidget::removeTab` calls after
it took the tab out; the visibility of the tab bar is left out. -/
def tabRemoved (tabs : List Tab) (index : Int) : Option (List Tab) :=
  let count_of_tabs := count tabs
  if index < count_of_tabs ∧ count_of_tabs > 1 then
    fixContentsAfterMove tabs index (count_of_tabs - 1)
  else some tabs

/-- `TabWidget::removeTab(index, clear_from_memory)`: `widget(index)` is
dereferenced when `clear_from_memory` is set; `QTabWidget::removeTab` takes
the tab out when the index has one and then calls `tabRemoved`. -/
def removeTab (tabs : List Tab) (index : Int) (clear_from_memory : Bool) :
    Option (List Tab) :=
  if 0 ≤ index ∧ index < count tabs then
    tabRemoved (tabs.eraseIdx index.toNat) index
  else if clear_from_memory then none
  else some tabs

/-- `TabWidget::closeTab(index)`: the returned flag and the tabs. -/
def closeTab (tabs : List Tab) (index : Int) : Option (Bool × List Tab) :=
  if tabType tabs index = TabType.Closable then
    (removeTab tabs index true).map (fun r => (true, r))
  else if tabType tabs index = TabType.DownloadManager then
    (removeTab tabs index false).map (fun r => (true, r))
  else some (false, tabs)

/-- The loop of `closeAllTabs`: `rounds` is `i + 1`. -/
def closeAllTabsLoop : Nat → List Tab → Option (List Tab)
  | 0, tabs => some tabs
  | i + 1, tabs =>
    match closeTab tabs i with
    | none => none
    | some r => closeAllTabsLoop i r.2

/-- `TabWidget::closeAllTabs()`. -/
def closeAllTabs (tabs : List Tab) : Option (List Tab) :=
  closeAllTabsLoop tabs.length tabs

/-- The loop of `closeAllTabsExceptCurrent`: `rounds` is `i + 1`. -/
def closeAllTabsExceptCurrentLoop : Nat → Int → List Tab → Option (List Tab)
  | 0, _, tabs => some tabs
  | i + 1, index_of_active, tabs =>
    if (i : Int) ≠ index_of_active then
      match closeTab tabs i with
      | none => none
      | some r =>
        closeAllTabsExceptCurrentLoop i
          (if (i : Int) < index_of_active then index_of_active - 1 else index_of_active) r.2
    else closeAllTabsExceptCurrentLoop i index_of_active tabs

/-- `TabWidget::closeAllTabsExceptCurrent()`; `currentIndex` is what
`QTabWidget::currentIndex()` returns at the start. -/
def closeAllTabsExceptCurrent (tabs : List Tab) (currentIndex : Int) : Option (List Tab) :=
  closeAllTabsExceptCurrentLoop tabs.length currentIndex tabs

/-- A tab that `closeTab` leaves in place. -/
def staysOpen (ident : Nat × TabType) : Bool :=
  ident.2 != TabType.Closable && ident.2 != TabType.DownloadManager

end TabWidget

end Gui

namespace OAuth2

/-! ## Basic facts about the model -/

theorem isEmpty_eq_true_iff (s : String) : isEmpty s = true ↔ s = "" := by
  unfold isEmpty
  constructor
  · intro h
    apply String.ext
    simpa using h
  · intro h
    subst h
    rfl

theorem isEmpty_eq_false_iff (s : String) : isEmpty s = false ↔ s ≠ "" := by
  rw [Ne, ← isEmpty_eq_true_iff]
  cases isEmpty s <;> simp

theorem bearer_template (a : String) : QString.arg "Bearer %1" a = "Bearer " ++ a := by
  apply String.ext
  simp [QString.arg, QString.findArgEscapes, QString.scan, QString.step, QString.stepIdle,
    QString.flush, QString.digitValue, QString.minEscape, QString.replaceArgEscapes,
    QString.singleArg, QString.mayExtend]

theorem bearer_text_ne_empty (a : String) : "Bearer " ++ a ≠ "" := by
  intro h
  have h2 := congrArg String.data h
  simp at h2

namespace QString

theorem scan_idle_text (g : ArgGrammar) (t r : List Char) (h : '%' ∉ t) :
    scan g .idle (t ++ r) = t.map ArgPart.text ++ scan g .idle r := by
  induction t with
  | nil => rfl
  | cons c cs ih =>
    have hc : c ≠ '%' := fun e => h (by simp [e])
    have hcs : '%' ∉ cs := fun e => h (by simp [e])
    simp [scan, step, stepIdle, hc, ih hcs]

theorem minEscape_text (t : List Char) (ps : List ArgPart) :
    minEscape (t.map ArgPart.text ++ ps) = minEscape ps := by
  induction t with
  | nil => rfl
  | cons c cs ih => simpa [minEscape] using ih

theorem replaceArgEscapes_text (m : Nat) (a t : List Char) (ps : List ArgPart) :
    replaceArgEscapes m a (t.map ArgPart.text ++ ps) = t ++ replaceArgEscapes m a ps := by
  induction t with
  | nil => rfl
  | cons c cs ih => simpa [replaceArgEscapes] using ih

theorem arg_text_append (t r : List Char) (a : String) (h : '%' ∉ t) :
    arg (String.mk (t ++ r)) a = String.mk (t ++ (arg (String.mk r) a).data) := by
  unfold arg findArgEscapes
  simp only [scan_idle_text singleArg t r h, minEscape_text, replaceArgEscapes_text]
  cases minEscape (scan singleArg ScanState.idle r) <;> rfl

theorem arg_refresh_1 (a : String) :
    arg "client_id=%1&client_secret=%2&refresh_token=%3&grant_type=%4" a =
      String.mk ("client_id=".data ++ a.data ++ "&client_secret=".data ++
        "%2&refresh_token=%3&grant_type=%4".data) := by
  apply String.ext
  simp [arg, findArgEscapes, scan, step, stepIdle, flush, digitValue, minEscape,
    replaceArgEscapes, singleArg, mayExtend]

theorem arg_refresh_2 (a : String) :
    arg "%2&refresh_token=%3&grant_type=%4" a =
      String.mk (a.data ++ "&refresh_token=".data ++ "%3&grant_type=%4".data) := by
  apply String.ext
  simp [arg, findArgEscapes, scan, step, stepIdle, flush, digitValue, minEscape,
    replaceArgEscapes, singleArg, mayExtend]

theorem arg_refresh_3 (a : String) :
    arg "%3&grant_type=%4" a = String.mk (a.data ++ "&grant_type=".data ++ "%4".data) := by
  apply String.ext
  simp [arg, findArgEscapes, scan, step, stepIdle, flush, digitValue, minEscape,
    replaceArgEscapes, singleArg, mayExtend]

theorem arg_refresh_4 (a : String) : arg "%4" a = a := by
  apply String.ext
  simp [arg, findArgEscapes, scan, step, stepIdle, flush, digitValue, minEscape,
    replaceArgEscapes, singleArg, mayExtend]

/-- The refresh body for values without a percent sign: each value stands
verbatim under its key and the grant type is the literal `refresh_token`. -/
theorem refresh_content_of_no_marker (cid sec tok : String)
    (h1 : '%' ∉ cid.data) (h2 : '%' ∉ sec.data) (h3 : '%' ∉ tok.data) :
    arg (arg (arg (arg "client_id=%1&client_secret=%2&refresh_token=%3&grant_type=%4"
      cid) sec) tok) "refresh_token" =
    "client_id=" ++ cid ++ "&client_secret=" ++ sec ++ "&refresh_token=" ++ tok ++
      "&grant_type=refresh_token" := by
  rw [arg_refresh_1]
  rw [arg_text_append _ _ sec (by simp [h1]), arg_refresh_2]
  rw [show ("client_id=".data ++ cid.data ++ "&client_secret=".data ++
        (String.mk (sec.data ++ "&refresh_token=".data ++ "%3&grant_type=%4".data)).data) =
      ("client_id=".data ++ cid.data ++ "&client_secret=".data ++ sec.data ++
        "&refresh_token=".data) ++ "%3&grant_type=%4".data by simp]
  rw [arg_text_append _ _ tok (by simp [h1, h2]), arg_refresh_3]
  rw [show ("client_id=".data ++ cid.data ++ "&client_secret=".data ++ sec.data ++
        "&refresh_token=".data ++
        (String.mk (tok.data ++ "&grant_type=".data ++ "%4".data)).data) =
      ("client_id=".data ++ cid.data ++ "&client_secret=".data ++ sec.data ++
        "&refresh_token=".data ++ tok.data ++ "&grant_type=".data) ++ "%4".data by simp]
  rw [arg_text_append _ _ "refresh_token" (by simp [h1, h2, h3]), arg_refresh_4]
  apply String.ext
  simp

theorem scan_idle_text_only (g : ArgGrammar) (t : List Char) (h : '%' ∉ t) :
    scan g .idle t = t.map ArgPart.text := by
  have := scan_idle_text g t [] h
  simpa [scan, flush] using this

theorem arg_code_1 (a : String) :
    arg "client_id=%1&client_secret=%2&code=%3&redirect_uri=%5&grant_type=%4" a =
      String.mk ("client_id=".data ++ a.data ++ "&client_secret=".data ++
        "%2&code=%3&redirect_uri=%5&grant_type=%4".data) := by
  apply String.ext
  simp [arg, findArgEscapes, scan, step, stepIdle, flush, digitValue, minEscape,
    replaceArgEscapes, singleArg, mayExtend]

theorem arg_code_2 (a : String) :
    arg "%2&code=%3&redirect_uri=%5&grant_type=%4" a =
      String.mk (a.data ++ "&code=".data ++ "%3&redirect_uri=%5&grant_type=%4".data) := by
  apply String.ext
  simp [arg, findArgEscapes, scan, step, stepIdle, flush, digitValue, minEscape,
    replaceArgEscapes, singleArg, mayExtend]

theorem arg_code_3 (a : String) :
    arg "%3&redirect_uri=%5&grant_type=%4" a =
      String.mk (a.data ++ "&redirect_uri=".data ++ "%5&grant_type=%4".data) := by
  apply String.ext
  simp [arg, findArgEscapes, scan, step, stepIdle, flush, digitValue, minEscape,
    replaceArgEscapes, singleArg, mayExtend]

theorem arg_code_4 (a : String) :
    arg "%5&grant_type=%4" a = String.mk ("%5&grant_type=".data ++ a.data) := by
  apply String.ext
  simp [arg, findArgEscapes, scan, step, stepIdle, flush, digitValue, minEscape,
    replaceArgEscapes, singleArg, mayExtend]

theorem minEscape_text_only (t : List Char) : minEscape (t.map ArgPart.text) = none := by
  have := minEscape_text t []
  simpa [minEscape] using this

theorem replaceArgEscapes_text_only (m : Nat) (a t : List Char) :
    replaceArgEscapes m a (t.map ArgPart.text) = t := by
  have := replaceArgEscapes_text m a t []
  simpa [replaceArgEscapes] using this

theorem arg_code_5 (g : List Char) (a : String) (h : '%' ∉ g) :
    arg (String.mk ("%5&grant_type=".data ++ g)) a =
      String.mk (a.data ++ "&grant_type=".data ++ g) := by
  apply String.ext
  simp [arg, findArgEscapes, scan, step, stepIdle, flush, digitValue, minEscape,
    replaceArgEscapes, mayExtend, fun gr => scan_idle_text_only gr g h,
    minEscape_text_only, replaceArgEscapes_text_only]

/-- The authorization-code body for values without a percent sign (the
redirect URL, inserted last, may hold any text): each value stands verbatim
under its key. -/
theorem code_content_of_no_marker (cid sec code grant redirect : String)
    (h1 : '%' ∉ cid.data) (h2 : '%' ∉ sec.data) (h3 : '%' ∉ code.data)
    (h4 : '%' ∉ grant.data) :
    arg (arg (arg (arg (arg
      "client_id=%1&client_secret=%2&code=%3&redirect_uri=%5&grant_type=%4"
      cid) sec) code) grant) redirect =
    "client_id=" ++ cid ++ "&client_secret=" ++ sec ++ "&code=" ++ code ++
      "&redirect_uri=" ++ redirect ++ "&grant_type=" ++ grant := by
  rw [arg_code_1]
  rw [arg_text_append _ _ sec (by simp [h1]), arg_code_2]
  rw [show ("client_id=".data ++ cid.data ++ "&client_secret=".data ++
        (String.mk (sec.data ++ "&code=".data ++ "%3&redirect_uri=%5&grant_type=%4".data)).data) =
      ("client_id=".data ++ cid.data ++ "&client_secret=".data ++ sec.data ++
        "&code=".data) ++ "%3&redirect_uri=%5&grant_type=%4".data by simp]
  rw [arg_text_append _ _ code (by simp [h1, h2]), arg_code_3]
  rw [show ("client_id=".data ++ cid.data ++ "&client_secret=".data ++ sec.data ++
        "&code=".data ++
        (String.mk (code.data ++ "&redirect_uri=".data ++ "%5&grant_type=%4".data)).data) =
      ("client_id=".data ++ cid.data ++ "&client_secret=".data ++ sec.data ++
        "&code=".data ++ code.data ++ "&redirect_uri=".data) ++ "%5&grant_type=%4".data by simp]
  rw [arg_text_append _ _ grant (by simp [h1, h2, h3]), arg_code_4]
  rw [show (String.mk ("%5&grant_type=".data ++ grant.data)).data =
      "%5&grant_type=".data ++ grant.data from rfl]
  rw [arg_text_append _ _ redirect (by simp [h1, h2, h3]), arg_code_5 _ _ h4]
  apply String.ext
  simp

end QString

namespace FormUrlEncoded

theorem isPlain_iff (v : String) :
    isPlain v = true ↔ '&' ∉ v.data ∧ '%' ∉ v.data ∧ '+' ∉ v.data := by
  unfold isPlain
  simp only [List.all_eq_true, Bool.and_eq_true, bne_iff_ne, ne_eq]
  constructor
  · intro h
    exact ⟨fun hm => (h _ hm).1.1 rfl, fun hm => (h _ hm).1.2 rfl, fun hm => (h _ hm).2 rfl⟩
  · rintro ⟨h1, h2, h3⟩ c hc
    exact ⟨⟨fun e => h1 (e ▸ hc), fun e => h2 (e ▸ hc)⟩, fun e => h3 (e ▸ hc)⟩

theorem splitOn_append_sep (sep : Char) (t r : List Char) (h : sep ∉ t) :
    splitOn sep (t ++ sep :: r) = t :: splitOn sep r := by
  induction t with
  | nil => simp [splitOn]
  | cons c cs ih =>
    have hc : c ≠ sep := fun e => h (by simp [e])
    have hcs : sep ∉ cs := fun e => h (by simp [e])
    simp [splitOn, hc, ih hcs]

theorem splitOn_of_not_mem (sep : Char) (t : List Char) (h : sep ∉ t) :
    splitOn sep t = [t] := by
  induction t with
  | nil => rfl
  | cons c cs ih =>
    have hc : c ≠ sep := fun e => h (by simp [e])
    have hcs : sep ∉ cs := fun e => h (by simp [e])
    simp [splitOn, hc, ih hcs]

theorem splitAtEquals_append (k v : List Char) (h : '=' ∉ k) :
    splitAtEquals (k ++ '=' :: v) = (k, some v) := by
  induction k with
  | nil => simp [splitAtEquals]
  | cons c cs ih =>
    have hc : c ≠ '=' := fun e => h (by simp [e])
    have hcs : '=' ∉ cs := fun e => h (by simp [e])
    simp [splitAtEquals, hc, ih hcs]

theorem plusToSpace_of_not_mem (t : List Char) (h : '+' ∉ t) : plusToSpace t = t := by
  unfold plusToSpace
  induction t with
  | nil => rfl
  | cons c cs ih =>
    have hc : c ≠ '+' := fun e => h (by simp [e])
    have hcs : '+' ∉ cs := fun e => h (by simp [e])
    simp [hc, ih hcs]

theorem percentDecode_of_not_mem (t : List Char) (h : '%' ∉ t) : percentDecode t = t := by
  unfold percentDecode
  induction t with
  | nil => rfl
  | cons c cs ih =>
    have hc : c ≠ '%' := fun e => h (by simp [e])
    have hcs : '%' ∉ cs := fun e => h (by simp [e])
    simp [percentDecodeFrom, percentStep, percentIdle, hc, ih hcs]

theorem decodeText_of_plain (v : String) (h : isPlain v = true) : decodeText v.data = v := by
  obtain ⟨_, h2, h3⟩ := (isPlain_iff v).1 h
  unfold decodeText
  rw [plusToSpace_of_not_mem _ h3, percentDecode_of_not_mem _ h2]

theorem parse_cons (piece rest : List Char) (h : '&' ∉ piece) (hne : piece ≠ []) :
    parse (String.mk (piece ++ '&' :: rest)) = parsePiece piece :: parse (String.mk rest) := by
  unfold parse
  simp only [splitOn_append_sep '&' piece rest h]
  cases piece with
  | nil => exact absurd rfl hne
  | cons c cs => simp [List.filter]

theorem parse_single (piece : List Char) (h : '&' ∉ piece) (hne : piece ≠ []) :
    parse (String.mk piece) = [parsePiece piece] := by
  unfold parse
  simp only [splitOn_of_not_mem '&' piece h]
  cases piece with
  | nil => exact absurd rfl hne
  | cons c cs => simp [List.filter]

theorem parsePiece_plain (k : List Char) (v : String) (hk : '=' ∉ k)
    (hv : isPlain v = true) :
    parsePiece (k ++ '=' :: v.data) = (decodeText k, v) := by
  unfold parsePiece
  rw [splitAtEquals_append k v.data hk]
  simp [decodeText_of_plain v hv]

/-- Parsing the authorization-code body built from plain values gives the
five intended pairs. -/
theorem parse_code_body (cid sec code redirect grant : String)
    (h1 : isPlain cid = true) (h2 : isPlain sec = true) (h3 : isPlain code = true)
    (h4 : isPlain redirect = true) (h5 : isPlain grant = true) :
    parse ("client_id=" ++ cid ++ "&client_secret=" ++ sec ++ "&code=" ++ code ++
      "&redirect_uri=" ++ redirect ++ "&grant_type=" ++ grant) =
    [("client_id", cid), ("client_secret", sec), ("code", code), ("redirect_uri", redirect),
      ("grant_type", grant)] := by
  have a1 := ((isPlain_iff cid).1 h1).1
  have a2 := ((isPlain_iff sec).1 h2).1
  have a3 := ((isPlain_iff code).1 h3).1
  have a4 := ((isPlain_iff redirect).1 h4).1
  have a5 := ((isPlain_iff grant).1 h5).1
  have hbody : "client_id=" ++ cid ++ "&client_secret=" ++ sec ++ "&code=" ++ code ++
      "&redirect_uri=" ++ redirect ++ "&grant_type=" ++ grant =
      String.mk (("client_id".data ++ '=' :: cid.data) ++ '&' ::
        (("client_secret".data ++ '=' :: sec.data) ++ '&' ::
          (("code".data ++ '=' :: code.data) ++ '&' ::
            (("redirect_uri".data ++ '=' :: redirect.data) ++ '&' ::
              ("grant_type".data ++ '=' :: grant.data))))) := by
    apply String.ext
    simp
  rw [hbody, parse_cons _ _ (by simp [a1]) (by simp), parse_cons _ _ (by simp [a2]) (by simp),
    parse_cons _ _ (by simp [a3]) (by simp), parse_cons _ _ (by simp [a4]) (by simp),
    parse_single _ (by simp [a5]) (by simp),
    parsePiece_plain _ cid (by decide) h1, parsePiece_plain _ sec (by decide) h2,
    parsePiece_plain _ code (by decide) h3, parsePiece_plain _ redirect (by decide) h4,
    parsePiece_plain _ grant (by decide) h5]
  rfl

/-- Parsing the refresh body built from plain values gives the four intended
pairs. -/
theorem parse_refresh_body (cid sec tok : String)
    (h1 : isPlain cid = true) (h2 : isPlain sec = true) (h3 : isPlain tok = true) :
    parse ("client_id=" ++ cid ++ "&client_secret=" ++ sec ++ "&refresh_token=" ++ tok ++
      "&grant_type=refresh_token") =
    [("client_id", cid), ("client_secret", sec), ("refresh_token", tok),
      ("grant_type", "refresh_token")] := by
  have a1 := ((isPlain_iff cid).1 h1).1
  have a2 := ((isPlain_iff sec).1 h2).1
  have a3 := ((isPlain_iff tok).1 h3).1
  have hbody : "client_id=" ++ cid ++ "&client_secret=" ++ sec ++ "&refresh_token=" ++ tok ++
      "&grant_type=refresh_token" =
      String.mk (("client_id".data ++ '=' :: cid.data) ++ '&' ::
        (("client_secret".data ++ '=' :: sec.data) ++ '&' ::
          (("refresh_token".data ++ '=' :: tok.data) ++ '&' ::
            "grant_type=refresh_token".data))) := by
    apply String.ext
    simp
  rw [hbody, parse_cons _ _ (by simp [a1]) (by simp), parse_cons _ _ (by simp [a2]) (by simp),
    parse_cons _ _ (by simp [a3]) (by simp),
    parsePiece_plain _ cid (by decide) h1, parsePiece_plain _ sec (by decide) h2,
    parsePiece_plain _ tok (by decide) h3]
  rfl

end FormUrlEncoded

theorem not_mem_killTimer (id : Int) (running : List Int) : id ∉ killTimer id running := by
  simp [killTimer]

theorem le_foldl_max (running : List Int) (a : Int) :
    a ≤ running.foldl max a ∧ ∀ x ∈ running, x ≤ running.foldl max a := by
  induction running generalizing a with
  | nil => simp
  | cons y ys ih =>
    obtain ⟨h1, h2⟩ := ih (max a y)
    refine ⟨le_trans (le_max_left a y) h1, ?_⟩
    intro x hx
    rcases List.mem_cons.1 hx with h | h
    · subst h
      exact le_trans (le_max_right a x) h1
    · exact h2 x h

theorem freshTimerId_pos (running : List Int) : 0 < freshTimerId running := by
  have := (le_foldl_max running 0).1
  unfold freshTimerId
  omega

theorem freshTimerId_not_mem (running : List Int) : freshTimerId running ∉ running := by
  intro h
  have := (le_foldl_max running 0).2 _ h
  unfold freshTimerId at this
  omega

theorem killTimer_idem (id : Int) (running : List Int) :
    killTimer id (killTimer id running) = killTimer id running := by
  simp [killTimer, List.filter_filter]

theorem QJsonObject.value_of_not_mem_keys (o : QJsonObject) (key : String)
    (h : key ∉ o.keys) : o.value key = QJsonValue.undefined := by
  induction o with
  | nil => rfl
  | cons p rest ih =>
    obtain ⟨k, v⟩ := p
    simp only [QJsonObject.keys, List.map_cons, List.mem_cons, not_or] at h
    have hk : ¬ k = key := fun e => h.1 e.symm
    simp only [QJsonObject.value, hk, if_false]
    exact ih h.2

theorem QJsonValue.toInt_intCast (E : Int) (hmin : INT_MIN ≤ E) (hmax : E ≤ INT_MAX) :
    (QJsonValue.double (E : ℚ)).toInt = E := by
  simp [QJsonValue.toInt, hmin, hmax]

namespace OAuth2Service

theorem logout_eq (s : OAuth2Service) :
    s.logout = { s with m_tokensExpireIn := none, m_accessToken := "", m_refreshToken := "",
                        runningTimers := killTimer s.m_timerId s.runningTimers } := by
  simp [logout, setTokensExpireIn, setAccessToken, setRefreshToken, killRefreshTimer,
    startRefreshTimer, refreshToken, isEmpty]

theorem login_of_no_refreshToken (s : OAuth2Service) (now : Int) (h : s.m_refreshToken = "") :
    s.login now = (false, s.retrieveAuthCode) := by
  have he : isEmpty s.m_refreshToken = true := (isEmpty_eq_true_iff _).2 h
  simp [login, refreshToken, he]

theorem login_of_expired (s : OAuth2Service) (now : Int) (h : s.m_refreshToken ≠ "")
    (hx : s.m_tokensExpireIn = none ∨ ∃ t, s.m_tokensExpireIn = some t ∧ t < now) :
    s.login now = (false, s.refreshAccessToken "") := by
  have he : isEmpty s.m_refreshToken = false := (isEmpty_eq_false_iff _).2 h
  rcases hx with hx | ⟨t, hx, hlt⟩
  · simp [login, refreshToken, tokensExpireIn, he, hx, QDateTime.isNull]
  · simp [login, refreshToken, tokensExpireIn, he, hx, QDateTime.isNull, QDateTime.lt,
      QDateTime.currentDateTime, hlt]

theorem login_of_valid (s : OAuth2Service) (now t : Int) (h : s.m_refreshToken ≠ "")
    (hx : s.m_tokensExpireIn = some t) (hle : now ≤ t) :
    s.login now = (true, s, []) := by
  have he : isEmpty s.m_refreshToken = false := (isEmpty_eq_false_iff _).2 h
  have hlt : ¬ t < now := by omega
  simp [login, refreshToken, tokensExpireIn, he, hx, QDateTime.isNull, QDateTime.lt,
    QDateTime.currentDateTime, hlt]

theorem isFullyLoggedIn_eq_true_iff (s : OAuth2Service) (now : Int) :
    s.isFullyLoggedIn now = true ↔
      ((∃ t, s.m_tokensExpireIn = some t ∧ now < t) ∧
        s.m_accessToken ≠ "" ∧ s.m_refreshToken ≠ "") := by
  unfold isFullyLoggedIn
  simp only [tokensExpireIn, refreshToken, accessToken, QDateTime.gt,
    QDateTime.currentDateTime, Bool.and_eq_true, Bool.not_eq_true', isEmpty_eq_false_iff]
  cases h : s.m_tokensExpireIn with
  | none => simp [QDateTime.lt]
  | some t => simp [QDateTime.lt]; tauto

theorem isFullyLoggedIn_of_null (s : OAuth2Service) (now : Int)
    (h : s.m_tokensExpireIn = none) : s.isFullyLoggedIn now = false := by
  simp [isFullyLoggedIn, tokensExpireIn, QDateTime.gt, QDateTime.lt,
    QDateTime.currentDateTime, h]

theorem login_fst_eq_true_iff (s : OAuth2Service) (now : Int) :
    (s.login now).1 = true ↔
      (s.m_refreshToken ≠ "" ∧ ∃ t, s.m_tokensExpireIn = some t ∧ now ≤ t) := by
  by_cases hr : s.m_refreshToken = ""
  · simp [login_of_no_refreshToken s now hr, hr]
  · cases h : s.m_tokensExpireIn with
    | none => simp [login_of_expired s now hr (Or.inl h), hr]
    | some t =>
      by_cases hlt : t < now
      · simp [login_of_expired s now hr (Or.inr ⟨t, h, hlt⟩), hr]
        omega
      · simp [login_of_valid s now t hr h (by omega), hr]
        omega

theorem bearer_of_loggedIn (s : OAuth2Service) (now : Int) (h : s.isFullyLoggedIn now = true) :
    s.bearer now = ("Bearer " ++ s.m_accessToken, s, []) := by
  simp [bearer, h, accessToken, bearer_template]

theorem bearer_of_not_loggedIn (s : OAuth2Service) (now : Int)
    (h : s.isFullyLoggedIn now = false) :
    s.bearer now = ("", s, [Effect.showGuiMessage "Inoreader: you have to login first"
      "Click here to login." MessageIcon.Critical (some Callback.login)]) := by
  simp [bearer, h, tr]

theorem setRefreshToken_empty (s : OAuth2Service) :
    s.setRefreshToken "" =
      { s with m_refreshToken := "", runningTimers := killTimer s.m_timerId s.runningTimers } := by
  simp [setRefreshToken, killRefreshTimer, startRefreshTimer, refreshToken, isEmpty]

theorem setRefreshToken_nonempty (s : OAuth2Service) (r : String) (h : r ≠ "") :
    s.setRefreshToken r =
      { s with m_refreshToken := r,
               m_timerId := freshTimerId (killTimer s.m_timerId s.runningTimers),
               runningTimers := freshTimerId (killTimer s.m_timerId s.runningTimers) ::
                 killTimer s.m_timerId s.runningTimers } := by
  have he : isEmpty r = false := (isEmpty_eq_false_iff r).2 h
  simp [setRefreshToken, killRefreshTimer, startRefreshTimer, refreshToken, he, startTimer]

theorem setRefreshToken_fields (s : OAuth2Service) (r : String) :
    (s.setRefreshToken r).m_refreshToken = r ∧
    (s.setRefreshToken r).m_accessToken = s.m_accessToken ∧
    (s.setRefreshToken r).m_tokensExpireIn = s.m_tokensExpireIn := by
  by_cases h : r = ""
  · subst h
    rw [setRefreshToken_empty]
    simp
  · rw [setRefreshToken_nonempty s r h]
    simp

theorem setRefreshToken_armed (s : OAuth2Service) (r : String) :
    (s.setRefreshToken r).refreshTimerArmed = !isEmpty r := by
  by_cases h : r = ""
  · subst h
    rw [setRefreshToken_empty]
    simp [refreshTimerArmed, not_mem_killTimer, isEmpty]
  · rw [setRefreshToken_nonempty s r h]
    simp [refreshTimerArmed, (isEmpty_eq_false_iff r).2 h]

theorem tokenRequestFinished_of_error (s : OAuth2Service) (now : Int) (doc : QJsonDocument)
    (h : "error" ∈ doc.object.keys) :
    s.tokenRequestFinished now doc =
      (s.logout, [Effect.tokensRetrieveError (doc.object.value "error").toString
        (doc.object.value "error_description").toString]) := by
  simp [tokenRequestFinished, h]

theorem tokenRequestFinished_of_no_error (s : OAuth2Service) (now : Int) (doc : QJsonDocument)
    (h : "error" ∉ doc.object.keys) :
    s.tokenRequestFinished now doc =
      ((((s.setTokensExpireIn (some (now + 1000 * (doc.object.value "expires_in").toInt))).setAccessToken
          (doc.object.value "access_token").toString).setRefreshToken
          (doc.object.value "refresh_token").toString),
        [Effect.tokensReceived (doc.object.value "access_token").toString
          (doc.object.value "refresh_token").toString
          (doc.object.value "expires_in").toInt]) := by
  have hf := setRefreshToken_fields
    ((s.setTokensExpireIn (some (now + 1000 * (doc.object.value "expires_in").toInt))).setAccessToken
      (doc.object.value "access_token").toString)
    (doc.object.value "refresh_token").toString
  have hc : doc.object.keys.contains "error" = false := by simpa using h
  unfold tokenRequestFinished
  simp only [hc, Bool.false_eq_true, if_false, QDateTime.addSecs, QDateTime.currentDateTime,
    accessToken, refreshToken]
  rw [hf.1, hf.2.1]
  rfl

theorem QJsonValue_toString_of_not_string (v : QJsonValue)
    (h : ∀ text, v ≠ QJsonValue.string text) : v.toString = "" := by
  cases v with
  | string text => exact absurd rfl (h text)
  | _ => rfl

theorem QJsonValue_toInt_of_not_whole (v : QJsonValue)
    (h : ∀ n : Int, v ≠ QJsonValue.double (n : ℚ)) : v.toInt = 0 := by
  cases v with
  | double d =>
    have hden : d.den ≠ 1 := by
      intro h1
      exact h d.num (by rw [(Rat.den_eq_one_iff d).1 h1])
    simp [QJsonValue.toInt, hden]
  | _ => rfl

theorem tokenRequestFinished_fields (s : OAuth2Service) (now : Int) (root : QJsonObject)
    (h : "error" ∉ root.keys) :
    (s.tokenRequestFinished now (QJsonDocument.ofObject root)).1.m_accessToken =
      (root.value "access_token").toString ∧
    (s.tokenRequestFinished now (QJsonDocument.ofObject root)).1.m_refreshToken =
      (root.value "refresh_token").toString ∧
    (s.tokenRequestFinished now (QJsonDocument.ofObject root)).1.m_tokensExpireIn =
      some (now + 1000 * (root.value "expires_in").toInt) ∧
    (s.tokenRequestFinished now (QJsonDocument.ofObject root)).2 =
      [Effect.tokensReceived (root.value "access_token").toString
        (root.value "refresh_token").toString (root.value "expires_in").toInt] := by
  rw [tokenRequestFinished_of_no_error s now (QJsonDocument.ofObject root) h]
  refine ⟨?_, ?_, ?_, rfl⟩
  · rw [(setRefreshToken_fields _ _).2.1]
    rfl
  · exact (setRefreshToken_fields _ _).1
  · rw [(setRefreshToken_fields _ _).2.2]
    rfl

theorem timerEvent_state (s : OAuth2Service) (now timerId : Int) :
    (s.timerEvent now timerId).1 = s := by
  unfold timerEvent
  split
  · simp only []
    split <;> rfl
  · rfl

theorem login_state (s : OAuth2Service) (now : Int) : (s.login now).2.1 = s := by
  unfold login
  simp only []
  split
  · rfl
  · split <;> rfl

theorem bearer_state (s : OAuth2Service) (now : Int) : (s.bearer now).2.1 = s := by
  unfold bearer
  split <;> rfl

theorem timersMatchToken_of_same (s t : OAuth2Service)
    (h1 : t.m_refreshToken = s.m_refreshToken) (h2 : t.m_timerId = s.m_timerId)
    (h3 : t.runningTimers = s.runningTimers) (h : s.timersMatchToken) :
    t.timersMatchToken := by
  unfold timersMatchToken at *
  rw [h1, h2, h3]
  exact h

theorem killTimer_of_timersMatchToken (s : OAuth2Service) (h : s.timersMatchToken) :
    killTimer s.m_timerId s.runningTimers = [] := by
  unfold timersMatchToken at h
  rw [h]
  cases isEmpty s.m_refreshToken <;> simp [killTimer]

theorem timersMatchToken_setRefreshToken (s : OAuth2Service) (r : String)
    (h : s.timersMatchToken) : (s.setRefreshToken r).timersMatchToken := by
  have hk := killTimer_of_timersMatchToken s h
  by_cases hr : r = ""
  · subst hr
    rw [setRefreshToken_empty]
    simp [timersMatchToken, hk, isEmpty]
  · rw [setRefreshToken_nonempty s r hr]
    simp [timersMatchToken, hk, (isEmpty_eq_false_iff r).2 hr]

theorem timersMatchToken_logout (s : OAuth2Service) (h : s.timersMatchToken) :
    s.logout.timersMatchToken := by
  unfold logout
  apply timersMatchToken_setRefreshToken
  exact timersMatchToken_of_same s _ rfl rfl rfl h

theorem timersMatchToken_tokenRequestFinished (s : OAuth2Service) (now : Int)
    (doc : QJsonDocument) (h : s.timersMatchToken) :
    (s.tokenRequestFinished now doc).1.timersMatchToken := by
  by_cases he : "error" ∈ doc.object.keys
  · rw [tokenRequestFinished_of_error s now doc he]
    exact timersMatchToken_logout s h
  · rw [tokenRequestFinished_of_no_error s now doc he]
    apply timersMatchToken_setRefreshToken
    exact timersMatchToken_of_same s _ rfl rfl rfl h

theorem timersMatchToken_apply (s : OAuth2Service) (op : Operation) (h : s.timersMatchToken) :
    (Operation.apply s op).timersMatchToken := by
  cases op with
  | setRefreshToken r => exact timersMatchToken_setRefreshToken s r h
  | logout => exact timersMatchToken_logout s h
  | authRejected => exact timersMatchToken_logout s h
  | tokenRequestFinished now doc => exact timersMatchToken_tokenRequestFinished s now doc h
  | bearer now =>
    show (s.bearer now).2.1.timersMatchToken
    rw [bearer_state]
    exact h
  | login now =>
    show (s.login now).2.1.timersMatchToken
    rw [login_state]
    exact h
  | timerEvent now timerId =>
    show (s.timerEvent now timerId).1.timersMatchToken
    rw [timerEvent_state]
    exact h
  | _ => exact timersMatchToken_of_same s _ rfl rfl rfl h

theorem timersMatchToken_run (ops : List Operation) (s : OAuth2Service)
    (h : s.timersMatchToken) : (s.run ops).timersMatchToken := by
  induction ops generalizing s with
  | nil => exact h
  | cons op rest ih => exact ih _ (timersMatchToken_apply s op h)

theorem timersMatchToken_construct (redirect authUrl tokenUrl clientId clientSecret scope : String) :
    (construct redirect authUrl tokenUrl clientId clientSecret scope).timersMatchToken := by
  simp [timersMatchToken, construct, isEmpty]

theorem run_setRefreshToken_arms :
    (fresh.run [Operation.setRefreshToken "R"]).runningTimers = [1] ∧
    (fresh.run [Operation.setRefreshToken "R"]).m_timerId = 1 ∧
    (fresh.run [Operation.setRefreshToken "R", Operation.setRefreshToken "S"]).runningTimers = [1] ∧
    (fresh.run [Operation.setRefreshToken "R", Operation.logout]).runningTimers = [] := by
  decide

theorem timerEvent_of_due (s : OAuth2Service) (now : Int) (hid : 0 ≤ s.m_timerId)
    (hdue : s.m_tokensExpireIn = none ∨ ∃ t, s.m_tokensExpireIn = some t ∧ t - 900000 < now) :
    s.timerEvent now s.m_timerId = s.refreshAccessToken "" := by
  rcases hdue with h | ⟨t, h, hlt⟩
  · simp [timerEvent, hid, tokensExpireIn, h, QDateTime.addSecs, QDateTime.lt,
      QDateTime.currentDateTime]
  · have hlt2 : t + -900000 < now := by omega
    simp [timerEvent, hid, tokensExpireIn, h, QDateTime.addSecs, QDateTime.lt,
      QDateTime.currentDateTime, hlt2]

theorem timerEvent_of_not_due (s : OAuth2Service) (now t : Int)
    (h : s.m_tokensExpireIn = some t) (hle : now ≤ t - 900000) :
    s.timerEvent now s.m_timerId = (s, []) := by
  have hlt2 : ¬ t + -900000 < now := by omega
  by_cases hid : 0 ≤ s.m_timerId
  · simp [timerEvent, hid, tokensExpireIn, h, QDateTime.addSecs, QDateTime.lt,
      QDateTime.currentDateTime, hlt2]
  · simp [timerEvent, hid]

theorem refreshAccessToken_empty_arg (s : OAuth2Service) :
    s.refreshAccessToken "" =
      (s, [Effect.showGuiMessage "Logging in via OAuth 2.0..."
            (QString.arg "Refreshing login tokens for '%1'..." s.m_tokenUrl)
            MessageIcon.Information none,
          Effect.post s.m_tokenUrl "application/x-www-form-urlencoded"
            (QString.arg (QString.arg (QString.arg (QString.arg
              "client_id=%1&client_secret=%2&refresh_token=%3&grant_type=%4"
              s.m_clientId) s.m_clientSecret) s.m_refreshToken) "refresh_token")]) := by
  simp [refreshAccessToken, refreshToken, isEmpty, tr]

theorem authUrl_template (clientId scope redirectUrl : String) :
    QString.multiArg "?client_id=%1&scope=%2&redirect_uri=%3&response_type=code&state=abcdef"
      [clientId, scope, redirectUrl] =
    "?client_id=" ++ clientId ++ "&scope=" ++ scope ++ "&redirect_uri=" ++ redirectUrl ++
      "&response_type=code&state=abcdef" := by
  apply String.ext
  simp [QString.multiArg, QString.findArgEscapes, QString.scan, QString.step,
    QString.stepIdle, QString.flush, QString.digitValue, QString.numbersUsed,
    QString.insertSorted, QString.replaceSeveral, QString.severalArgs, QString.mayExtend,
    List.indexOf, List.findIdx, List.findIdx.go]

/-- `retrieveAccessToken` for values without a percent sign: one POST whose
body holds each value verbatim under its key. -/
theorem retrieveAccessToken_of_no_marker (s : OAuth2Service) (auth_code : String)
    (h1 : '%' ∉ s.m_clientId.data) (h2 : '%' ∉ s.m_clientSecret.data)
    (h3 : '%' ∉ auth_code.data) (h4 : '%' ∉ s.m_tokenGrantType.data) :
    s.retrieveAccessToken auth_code =
      (s, [Effect.post s.m_tokenUrl "application/x-www-form-urlencoded"
        ("client_id=" ++ s.m_clientId ++ "&client_secret=" ++ s.m_clientSecret ++ "&code=" ++
          auth_code ++ "&redirect_uri=" ++ s.m_redirectUrl ++ "&grant_type=" ++
          s.m_tokenGrantType)]) := by
  unfold retrieveAccessToken
  simp only [QString.code_content_of_no_marker _ _ _ _ _ h1 h2 h3 h4]

/-- `refreshAccessToken` with the stored token, for values without a percent
sign: the POST body holds each value verbatim under its key, and the grant
type is the literal `refresh_token`. -/
theorem refreshAccessToken_of_no_marker (s : OAuth2Service)
    (h1 : '%' ∉ s.m_clientId.data) (h2 : '%' ∉ s.m_clientSecret.data)
    (h3 : '%' ∉ s.m_refreshToken.data) :
    (s.refreshAccessToken "").2.filter Effect.isPost =
      [Effect.post s.m_tokenUrl "application/x-www-form-urlencoded"
        ("client_id=" ++ s.m_clientId ++ "&client_secret=" ++ s.m_clientSecret ++
          "&refresh_token=" ++ s.m_refreshToken ++ "&grant_type=refresh_token")] := by
  rw [refreshAccessToken_empty_arg]
  simp [Effect.isPost, QString.refresh_content_of_no_marker _ _ _ h1 h2 h3]

theorem tokenRequestFinished_object (s : OAuth2Service) (now : Int) (doc : QJsonDocument) :
    s.tokenRequestFinished now doc =
      s.tokenRequestFinished now (QJsonDocument.ofObject doc.object) := rfl

theorem setRefreshToken_static (s : OAuth2Service) (r : String) :
    (s.setRefreshToken r).m_clientId = s.m_clientId ∧
    (s.setRefreshToken r).m_clientSecret = s.m_clientSecret ∧
    (s.setRefreshToken r).m_scope = s.m_scope := by
  by_cases h : r = ""
  · subst h
    rw [setRefreshToken_empty]
    simp
  · rw [setRefreshToken_nonempty s r h]
    simp

theorem logout_static (s : OAuth2Service) :
    s.logout.m_clientId = s.m_clientId ∧
    s.logout.m_clientSecret = s.m_clientSecret ∧
    s.logout.m_scope = s.m_scope := by
  rw [logout_eq]
  simp

theorem tokenRequestFinished_static (s : OAuth2Service) (now : Int) (doc : QJsonDocument) :
    (s.tokenRequestFinished now doc).1.m_clientId = s.m_clientId ∧
    (s.tokenRequestFinished now doc).1.m_clientSecret = s.m_clientSecret ∧
    (s.tokenRequestFinished now doc).1.m_scope = s.m_scope := by
  by_cases he : "error" ∈ doc.object.keys
  · rw [tokenRequestFinished_of_error s now doc he]
    exact logout_static s
  · rw [tokenRequestFinished_of_no_error s now doc he]
    exact setRefreshToken_static _ _

theorem apply_scope (s : OAuth2Service) (op : Operation) :
    (Operation.apply s op).m_scope = s.m_scope := by
  cases op with
  | setRefreshToken r => exact (setRefreshToken_static s r).2.2
  | logout => exact (logout_static s).2.2
  | authRejected => exact (logout_static s).2.2
  | tokenRequestFinished now doc => exact (tokenRequestFinished_static s now doc).2.2
  | bearer now =>
    show (s.bearer now).2.1.m_scope = s.m_scope
    rw [bearer_state]
  | login now =>
    show (s.login now).2.1.m_scope = s.m_scope
    rw [login_state]
  | timerEvent now timerId =>
    show (s.timerEvent now timerId).1.m_scope = s.m_scope
    rw [timerEvent_state]
  | _ => rfl

theorem apply_clientId (s : OAuth2Service) (op : Operation)
    (h : ∀ x, op ≠ Operation.setClientId x) :
    (Operation.apply s op).m_clientId = s.m_clientId := by
  cases op with
  | setClientId x => exact absurd rfl (h x)
  | setRefreshToken r => exact (setRefreshToken_static s r).1
  | logout => exact (logout_static s).1
  | authRejected => exact (logout_static s).1
  | tokenRequestFinished now doc => exact (tokenRequestFinished_static s now doc).1
  | bearer now =>
    show (s.bearer now).2.1.m_clientId = s.m_clientId
    rw [bearer_state]
  | login now =>
    show (s.login now).2.1.m_clientId = s.m_clientId
    rw [login_state]
  | timerEvent now timerId =>
    show (s.timerEvent now timerId).1.m_clientId = s.m_clientId
    rw [timerEvent_state]
  | _ => rfl

theorem apply_clientSecret (s : OAuth2Service) (op : Operation)
    (h : ∀ x, op ≠ Operation.setClientSecret x) :
    (Operation.apply s op).m_clientSecret = s.m_clientSecret := by
  cases op with
  | setClientSecret x => exact absurd rfl (h x)
  | setRefreshToken r => exact (setRefreshToken_static s r).2.1
  | logout => exact (logout_static s).2.1
  | authRejected => exact (logout_static s).2.1
  | tokenRequestFinished now doc => exact (tokenRequestFinished_static s now doc).2.1
  | bearer now =>
    show (s.bearer now).2.1.m_clientSecret = s.m_clientSecret
    rw [bearer_state]
  | login now =>
    show (s.login now).2.1.m_clientSecret = s.m_clientSecret
    rw [login_state]
  | timerEvent now timerId =>
    show (s.timerEvent now timerId).1.m_clientSecret = s.m_clientSecret
    rw [timerEvent_state]
  | _ => rfl

theorem run_scope (ops : List Operation) (s : OAuth2Service) : (s.run ops).m_scope = s.m_scope := by
  induction ops generalizing s with
  | nil => rfl
  | cons op rest ih =>
    show ((Operation.apply s op).run rest).m_scope = s.m_scope
    rw [ih, apply_scope]

theorem run_clientId (ops : List Operation) (s : OAuth2Service)
    (h : ∀ x, Operation.setClientId x ∉ ops) : (s.run ops).m_clientId = s.m_clientId := by
  induction ops generalizing s with
  | nil => rfl
  | cons op rest ih =>
    show ((Operation.apply s op).run rest).m_clientId = s.m_clientId
    rw [ih _ (fun x hx => h x (List.mem_cons_of_mem _ hx)),
      apply_clientId s op (fun x hx => h x (by rw [hx]; exact List.mem_cons_self _ _))]

theorem run_clientSecret (ops : List Operation) (s : OAuth2Service)
    (h : ∀ x, Operation.setClientSecret x ∉ ops) :
    (s.run ops).m_clientSecret = s.m_clientSecret := by
  induction ops generalizing s with
  | nil => rfl
  | cons op rest ih =>
    show ((Operation.apply s op).run rest).m_clientSecret = s.m_clientSecret
    rw [ih _ (fun x hx => h x (List.mem_cons_of_mem _ hx)),
      apply_clientSecret s op (fun x hx => h x (by rw [hx]; exact List.mem_cons_self _ _))]

theorem refreshAccessToken_state (s : OAuth2Service) (t : String) :
    (s.refreshAccessToken t).1 = s := rfl

theorem refreshAccessToken_nonempty_arg (s : OAuth2Service) (t : String) (h : t ≠ "") :
    s.refreshAccessToken t =
      (s, [Effect.showGuiMessage "Logging in via OAuth 2.0..."
            (QString.arg "Refreshing login tokens for '%1'..." s.m_tokenUrl)
            MessageIcon.Information none,
          Effect.post s.m_tokenUrl "application/x-www-form-urlencoded"
            (QString.arg (QString.arg (QString.arg (QString.arg
              "client_id=%1&client_secret=%2&refresh_token=%3&grant_type=%4"
              s.m_clientId) s.m_clientSecret) t) "refresh_token")]) := by
  have he : isEmpty t = false := (isEmpty_eq_false_iff t).2 h
  simp [refreshAccessToken, he, tr]

/-- `refreshAccessToken(t)` for values without a percent sign: the state is
unchanged and the one POST carries, under `refresh_token`, `t` when `t` is
non-empty and the stored refresh token when `t` is empty. -/
theorem refreshAccessToken_selects_token (s : OAuth2Service) (t : String)
    (h1 : '%' ∉ s.m_clientId.data) (h2 : '%' ∉ s.m_clientSecret.data)
    (h3 : '%' ∉ s.m_refreshToken.data) (h4 : '%' ∉ t.data) :
    (s.refreshAccessToken t).1 = s ∧
    (s.refreshAccessToken t).2.filter Effect.isPost =
      [Effect.post s.m_tokenUrl "application/x-www-form-urlencoded"
        ("client_id=" ++ s.m_clientId ++ "&client_secret=" ++ s.m_clientSecret ++
          "&refresh_token=" ++ (if t = "" then s.m_refreshToken else t) ++
          "&grant_type=refresh_token")] := by
  refine ⟨rfl, ?_⟩
  by_cases ht : t = ""
  · subst ht
    rw [refreshAccessToken_empty_arg]
    simp [Effect.isPost, QString.refresh_content_of_no_marker _ _ _ h1 h2 h3]
  · rw [refreshAccessToken_nonempty_arg s t ht]
    simp [Effect.isPost, QString.refresh_content_of_no_marker _ _ _ h1 h2 h4, ht]

/-! ## Claims -/

/-- C1: `isFullyLoggedIn()` is true exactly when `expiresAt` is a valid
date-time strictly later than `now`, the access token is non-empty and the
refresh token is non-empty; with a null `expiresAt` it is false at every
`now`. -/
theorem C1_isFullyLoggedIn_iff (s : OAuth2Service) (now : Int) :
    (s.isFullyLoggedIn now = true ↔
      ((∃ t, s.m_tokensExpireIn = some t ∧ now < t) ∧
        s.m_accessToken ≠ "" ∧ s.m_refreshToken ≠ "")) ∧
    ({ s with m_tokensExpireIn := none } : OAuth2Service).isFullyLoggedIn now = false :=
  ⟨isFullyLoggedIn_eq_true_iff s now, isFullyLoggedIn_of_null _ now rfl⟩

/-- C2: `login()` returns true exactly when the refresh token is non-empty and
`expiresAt` is known (non-null) and has not passed (is not earlier than
`now`); in every other state it returns false. -/
theorem C2_login_true_iff (s : OAuth2Service) (now : Int) :
    ((s.login now).1 = true ↔
      (s.m_refreshToken ≠ "" ∧ ∃ t, s.m_tokensExpireIn = some t ∧ now ≤ t)) ∧
    ((s.login now).1 = false ↔
      ¬ (s.m_refreshToken ≠ "" ∧ ∃ t, s.m_tokensExpireIn = some t ∧ now ≤ t)) := by
  refine ⟨login_fst_eq_true_iff s now, ?_⟩
  rw [← login_fst_eq_true_iff s now]
  cases (s.login now).1 <;> simp

/-- C3: `login()` has exactly one of three outcomes, decided by the state
alone.  (a) Refresh token empty: one call of the login page (with the
authorization URL and the redirect URL) and no POST to the token endpoint.
(b) Refresh token non-empty and `expiresAt` null or earlier than `now`: one
POST to the token endpoint whose body is the refresh body filled with the
stored refresh token, and no call of the login page.  (c) Refresh token
non-empty and `expiresAt` valid and not earlier than `now`: `login()` returns
true with no effect at all (no request, no notification).  The state is the
same after `login()` in every case; the three conditions exclude one another
and cover every state. -/
theorem C3_login_decision_table (s : OAuth2Service) (now : Int) :
    ((s.m_refreshToken = "" ∧
        ((s.login now).2.2.filter Effect.isLoginPage =
          [Effect.loginPage
            (s.m_authUrl ++ QString.multiArg
              "?client_id=%1&scope=%2&redirect_uri=%3&response_type=code&state=abcdef"
              [s.m_clientId, s.m_scope, s.m_redirectUrl])
            s.m_redirectUrl]) ∧
        (s.login now).2.2.filter Effect.isPost = [] ∧
        (s.login now).2.1 = s)
      ∨
      (s.m_refreshToken ≠ "" ∧
        (s.m_tokensExpireIn = none ∨ ∃ t, s.m_tokensExpireIn = some t ∧ t < now) ∧
        ((s.login now).2.2.filter Effect.isPost =
          [Effect.post s.m_tokenUrl "application/x-www-form-urlencoded"
            (QString.arg (QString.arg (QString.arg (QString.arg
              "client_id=%1&client_secret=%2&refresh_token=%3&grant_type=%4"
              s.m_clientId) s.m_clientSecret) s.m_refreshToken) "refresh_token")]) ∧
        (s.login now).2.2.filter Effect.isLoginPage = [] ∧
        (s.login now).2.1 = s)
      ∨
      (s.m_refreshToken ≠ "" ∧
        (∃ t, s.m_tokensExpireIn = some t ∧ now ≤ t) ∧
        s.login now = (true, s, []))) := by
  by_cases hr : s.m_refreshToken = ""
  · left
    rw [login_of_no_refreshToken s now hr]
    simp [retrieveAuthCode, Effect.isLoginPage, Effect.isPost, hr, List.filter]
  · by_cases hx : s.m_tokensExpireIn = none ∨ ∃ t, s.m_tokensExpireIn = some t ∧ t < now
    · right; left
      rw [login_of_expired s now hr hx]
      refine ⟨hr, hx, ?_, ?_, ?_⟩ <;>
        simp [refreshAccessToken, refreshToken, Effect.isLoginPage, Effect.isPost, isEmpty,
          List.filter]
    · right; right
      cases h : s.m_tokensExpireIn with
      | none => exact absurd (Or.inl h) hx
      | some t =>
        have hle : now ≤ t := by
          by_contra hlt
          exact hx (Or.inr ⟨t, h, by omega⟩)
        exact ⟨hr, ⟨t, rfl, hle⟩, login_of_valid s now t hr h hle⟩

/-- C4, as stated, fails: with a non-empty refresh token and an expiry one
second ahead but no access token, `login()` returns true while
`isFullyLoggedIn()` is false and `bearer()` returns the empty string; and with
both tokens present and `expiresAt` equal to `now`, `login()` returns true
while `isFullyLoggedIn()` is false. -/
theorem C4_counterexample :
    ((withTokens "" "R" (some 1000)).login 0).1 = true ∧
    (withTokens "" "R" (some 1000)).isFullyLoggedIn 0 = false ∧
    ((withTokens "" "R" (some 1000)).bearer 0).1 = "" ∧
    ((withTokens "A" "R" (some 0)).login 0).1 = true ∧
    (withTokens "A" "R" (some 0)).isFullyLoggedIn 0 = false := by
  decide

/-- C4, amended: when `login()` returns true, the access token is non-empty
and `expiresAt` is not exactly `now`, then `isFullyLoggedIn()` at the same
`now` is true and `bearer()` returns "Bearer " followed by the access token,
which is a non-empty string. -/
theorem C4_login_true_usable (s : OAuth2Service) (now : Int)
    (hlogin : (s.login now).1 = true) (haccess : s.m_accessToken ≠ "")
    (hexp : s.m_tokensExpireIn ≠ some now) :
    s.isFullyLoggedIn now = true ∧
    (s.bearer now).1 = "Bearer " ++ s.m_accessToken ∧
    (s.bearer now).1 ≠ "" := by
  obtain ⟨hr, t, ht, hle⟩ := (login_fst_eq_true_iff s now).1 hlogin
  have hne : t ≠ now := fun h => hexp (by rw [ht, h])
  have hlt : now < t := by omega
  have hin : s.isFullyLoggedIn now = true :=
    (isFullyLoggedIn_eq_true_iff s now).2 ⟨⟨t, ht, hlt⟩, haccess, hr⟩
  rw [bearer_of_loggedIn s now hin]
  exact ⟨hin, rfl, bearer_text_ne_empty _⟩

/-- C4, amended, at a state with both tokens and an expiry one second ahead. -/
theorem C4_login_true_usable_witness :
    ((withTokens "A" "R" (some 1000)).login 0).1 = true ∧
    (withTokens "A" "R" (some 1000)).isFullyLoggedIn 0 = true ∧
    ((withTokens "A" "R" (some 1000)).bearer 0).1 = "Bearer A" :=
  ⟨by decide,
   (C4_login_true_usable (withTokens "A" "R" (some 1000)) 0
      (by decide) (by decide) (by decide)).1,
   (C4_login_true_usable (withTokens "A" "R" (some 1000)) 0
      (by decide) (by decide) (by decide)).2.1⟩

/-- C5: after `logout()` the access token is empty, the refresh token is empty
and `expiresAt` is null, so `isFullyLoggedIn()` is false at every `now`; the
client id, the client secret, the scope, the three URLs and the token grant
type are unchanged. -/
theorem C5_logout_clears_credentials (s : OAuth2Service) :
    s.logout.m_accessToken = "" ∧
    s.logout.m_refreshToken = "" ∧
    s.logout.m_tokensExpireIn = none ∧
    (∀ now : Int, s.logout.isFullyLoggedIn now = false) ∧
    s.logout.m_clientId = s.m_clientId ∧
    s.logout.m_clientSecret = s.m_clientSecret ∧
    s.logout.m_scope = s.m_scope ∧
    s.logout.m_authUrl = s.m_authUrl ∧
    s.logout.m_tokenUrl = s.m_tokenUrl ∧
    s.logout.m_redirectUrl = s.m_redirectUrl ∧
    s.logout.m_tokenGrantType = s.m_tokenGrantType := by
  have hnull : s.logout.m_tokensExpireIn = none := by rw [logout_eq]
  refine ⟨?_, ?_, hnull, fun now => isFullyLoggedIn_of_null _ now hnull, ?_⟩
  all_goals rw [logout_eq]
  simp

/-- C6: `logout()` is idempotent on the whole state, timers included: the
state after two calls equals the state after one; and after `logout()` the
refresh timer is not armed: the timer `m_timerId` names is not running, and
no timer runs that did not run before. -/
theorem C6_logout_idempotent (s : OAuth2Service) :
    s.logout.logout = s.logout ∧
    s.logout.refreshTimerArmed = false ∧
    (∀ id ∈ s.logout.runningTimers, id ∈ s.runningTimers ∧ id ≠ s.m_timerId) := by
  refine ⟨?_, ?_, ?_⟩
  · rw [logout_eq s.logout, logout_eq s]
    simp [killTimer_idem]
  · rw [logout_eq s]
    simp [refreshTimerArmed, not_mem_killTimer]
  · intro id hid
    rw [logout_eq s] at hid
    simpa [killTimer] using hid

/-- C7, as stated, fails for an integer that the `int` of the handler cannot
hold: for `expires_in` = 2147483648 `toInt()` gives 0, so `expiresAt` becomes
`now` and the tokens-received event carries 0 instead of 2147483648. -/
theorem C7_counterexample :
    (fresh.tokenRequestFinished 0 (QJsonDocument.ofObject
      [("access_token", QJsonValue.string "A"), ("refresh_token", QJsonValue.string "R"),
       ("expires_in", QJsonValue.double ((2147483648 : Int) : ℚ))])).1.m_tokensExpireIn
      = some 0 ∧
    (fresh.tokenRequestFinished 0 (QJsonDocument.ofObject
      [("access_token", QJsonValue.string "A"), ("refresh_token", QJsonValue.string "R"),
       ("expires_in", QJsonValue.double ((2147483648 : Int) : ℚ))])).2
      = [Effect.tokensReceived "A" "R" 0] ∧
    (fresh.tokenRequestFinished 0 (QJsonDocument.ofObject
      [("access_token", QJsonValue.string "A"), ("refresh_token", QJsonValue.string "R"),
       ("expires_in", QJsonValue.double ((2147483648 : Int) : ℚ))])).1.m_tokensExpireIn
      ≠ some (0 + 1000 * 2147483648) ∧
    (fresh.tokenRequestFinished 0 (QJsonDocument.ofObject
      [("access_token", QJsonValue.string "A"), ("refresh_token", QJsonValue.string "R"),
       ("expires_in", QJsonValue.double ((2147483648 : Int) : ℚ))])).2
      ≠ [Effect.tokensReceived "A" "R" 2147483648] := by
  have hr : fresh.tokenRequestFinished 0 (QJsonDocument.ofObject
      [("access_token", QJsonValue.string "A"), ("refresh_token", QJsonValue.string "R"),
       ("expires_in", QJsonValue.double ((2147483648 : Int) : ℚ))]) =
      (((fresh.setTokensExpireIn (some 0)).setAccessToken "A").setRefreshToken "R",
        [Effect.tokensReceived "A" "R" 0]) := by
    rw [tokenRequestFinished_of_no_error _ _ _ (by decide)]
    simp [QJsonDocument.object, QJsonObject.value, QJsonValue.toString, QJsonValue.toInt,
      INT_MAX]
  rw [hr]
  refine ⟨?_, rfl, ?_, ?_⟩
  · exact (setRefreshToken_fields _ _).2.2
  · rw [(setRefreshToken_fields _ _).2.2]
    decide
  · decide

/-- C7, amended: for a JSON object without an `error` key whose fields are
`access_token` = A (string), `refresh_token` = R (string) and `expires_in` = E,
an integer within the range of the C++ `int` the handler reads it into
(-2147483648 to 2147483647), the handler leaves the access token A, the
refresh token R and `expiresAt` = `now` + E seconds, and raises exactly one
tokens-received(A, R, E) event and no other event. -/
theorem C7_success_exchange (s : OAuth2Service) (now : Int) (root : QJsonObject)
    (A R : String) (E : Int)
    (hno : "error" ∉ root.keys)
    (hA : root.value "access_token" = QJsonValue.string A)
    (hR : root.value "refresh_token" = QJsonValue.string R)
    (hE : root.value "expires_in" = QJsonValue.double (E : ℚ))
    (hmin : INT_MIN ≤ E) (hmax : E ≤ INT_MAX) :
    (s.tokenRequestFinished now (QJsonDocument.ofObject root)).1.m_accessToken = A ∧
    (s.tokenRequestFinished now (QJsonDocument.ofObject root)).1.m_refreshToken = R ∧
    (s.tokenRequestFinished now (QJsonDocument.ofObject root)).1.m_tokensExpireIn =
      some (now + 1000 * E) ∧
    (s.tokenRequestFinished now (QJsonDocument.ofObject root)).2 =
      [Effect.tokensReceived A R E] := by
  rw [tokenRequestFinished_of_no_error s now (QJsonDocument.ofObject root) hno]
  simp only [QJsonDocument.object, hA, hR, hE, QJsonValue.toString,
    QJsonValue.toInt_intCast E hmin hmax]
  refine ⟨?_, ?_, ?_, trivial⟩
  · rw [(setRefreshToken_fields _ _).2.1]
    rfl
  · exact (setRefreshToken_fields _ _).1
  · rw [(setRefreshToken_fields _ _).2.2]
    rfl

/-- C7, amended, at A = "A", R = "R", E = 3600. -/
theorem C7_success_exchange_witness :
    (fresh.tokenRequestFinished 5000 (QJsonDocument.ofObject
      [("access_token", QJsonValue.string "A"), ("refresh_token", QJsonValue.string "R"),
       ("expires_in", QJsonValue.double ((3600 : Int) : ℚ))])).1.m_accessToken = "A" ∧
    (fresh.tokenRequestFinished 5000 (QJsonDocument.ofObject
      [("access_token", QJsonValue.string "A"), ("refresh_token", QJsonValue.string "R"),
       ("expires_in", QJsonValue.double ((3600 : Int) : ℚ))])).1.m_refreshToken = "R" ∧
    (fresh.tokenRequestFinished 5000 (QJsonDocument.ofObject
      [("access_token", QJsonValue.string "A"), ("refresh_token", QJsonValue.string "R"),
       ("expires_in", QJsonValue.double ((3600 : Int) : ℚ))])).1.m_tokensExpireIn =
      some (5000 + 1000 * 3600) ∧
    (fresh.tokenRequestFinished 5000 (QJsonDocument.ofObject
      [("access_token", QJsonValue.string "A"), ("refresh_token", QJsonValue.string "R"),
       ("expires_in", QJsonValue.double ((3600 : Int) : ℚ))])).2 =
      [Effect.tokensReceived "A" "R" 3600] :=
  C7_success_exchange fresh 5000
    [("access_token", QJsonValue.string "A"), ("refresh_token", QJsonValue.string "R"),
     ("expires_in", QJsonValue.double ((3600 : Int) : ℚ))]
    "A" "R" 3600 (by decide) (by simp [QJsonObject.value]) (by simp [QJsonObject.value])
    (by simp [QJsonObject.value]) (by decide) (by decide)

/-- C8: for a reply that is a JSON object with an `error` key, whatever else
it holds, the handler leaves the state `logout()` leaves (access token empty,
refresh token empty, `expiresAt` null, refresh timer not armed) and raises
exactly one event, token-error(e, d), where e and d are the string readings of
`error` and `error_description`: the string when the member is a string, the
empty string when it is absent or of another type.  No tokens-received event
is raised. -/
theorem C8_error_exchange (s : OAuth2Service) (now : Int) (root : QJsonObject)
    (herr : "error" ∈ root.keys) :
    (s.tokenRequestFinished now (QJsonDocument.ofObject root)).1 = s.logout ∧
    (s.tokenRequestFinished now (QJsonDocument.ofObject root)).1.m_accessToken = "" ∧
    (s.tokenRequestFinished now (QJsonDocument.ofObject root)).1.m_refreshToken = "" ∧
    (s.tokenRequestFinished now (QJsonDocument.ofObject root)).1.m_tokensExpireIn = none ∧
    (s.tokenRequestFinished now (QJsonDocument.ofObject root)).1.refreshTimerArmed = false ∧
    (s.tokenRequestFinished now (QJsonDocument.ofObject root)).2 =
      [Effect.tokensRetrieveError (root.value "error").toString
        (root.value "error_description").toString] ∧
    (∀ key text, root.value key = QJsonValue.string text → (root.value key).toString = text) ∧
    (∀ key, key ∉ root.keys → (root.value key).toString = "") ∧
    (∀ key, (∀ text, root.value key ≠ QJsonValue.string text) → (root.value key).toString = "") := by
  rw [tokenRequestFinished_of_error s now (QJsonDocument.ofObject root) herr]
  refine ⟨rfl, ?_, ?_, ?_, ?_, rfl, ?_, ?_, ?_⟩
  · rw [logout_eq]
  · rw [logout_eq]
  · rw [logout_eq]
  · rw [logout_eq]
    simp [refreshTimerArmed, not_mem_killTimer]
  · intro key text h
    rw [h]
    rfl
  · intro key h
    rw [QJsonObject.value_of_not_mem_keys root key h]
    rfl
  · intro key h
    cases hv : root.value key with
    | string text => exact absurd hv (h text)
    | _ => rfl

/-- C8 at `error` = "invalid_grant", `error_description` = "expired", in an
object that also holds a token field, from a logged-in state. -/
theorem C8_error_exchange_witness :
    ((withTokens "A" "R" (some 1000)).tokenRequestFinished 0 (QJsonDocument.ofObject
      [("error", QJsonValue.string "invalid_grant"),
       ("error_description", QJsonValue.string "expired"),
       ("access_token", QJsonValue.string "B")])).2 =
      [Effect.tokensRetrieveError "invalid_grant" "expired"] ∧
    ((withTokens "A" "R" (some 1000)).tokenRequestFinished 0 (QJsonDocument.ofObject
      [("error", QJsonValue.string "invalid_grant"),
       ("error_description", QJsonValue.string "expired"),
       ("access_token", QJsonValue.string "B")])).1.m_accessToken = "" :=
  ⟨(C8_error_exchange (withTokens "A" "R" (some 1000)) 0
      [("error", QJsonValue.string "invalid_grant"),
       ("error_description", QJsonValue.string "expired"),
       ("access_token", QJsonValue.string "B")] (by decide)).2.2.2.2.2.1,
   (C8_error_exchange (withTokens "A" "R" (some 1000)) 0
      [("error", QJsonValue.string "invalid_grant"),
       ("error_description", QJsonValue.string "expired"),
       ("access_token", QJsonValue.string "B")] (by decide)).2.1⟩

/-- C9, as stated, fails: a reply that is not JSON gives the null document,
whose object is empty and so has no `error` key; the handler takes the other
branch.  From a logged-in state, at `now` = 0, it raises tokens-received with
empty tokens and 0 (no token-error event), and `expiresAt` ends as `now`, not
null, so the state is not the state `logout()` leaves. -/
theorem C9_counterexample :
    ((withTokens "A" "R" (some 1000)).tokenRequestFinished 0 QJsonDocument.null).2 =
      [Effect.tokensReceived "" "" 0] ∧
    ((withTokens "A" "R" (some 1000)).tokenRequestFinished 0
      QJsonDocument.null).1.m_tokensExpireIn = some 0 ∧
    ((withTokens "A" "R" (some 1000)).tokenRequestFinished 0 QJsonDocument.null).1 ≠
      (withTokens "A" "R" (some 1000)).logout := by
  have hr := tokenRequestFinished_of_no_error (withTokens "A" "R" (some 1000)) 0
    QJsonDocument.null (by decide)
  simp only [QJsonDocument.object, QJsonObject.value, QJsonValue.toString, QJsonValue.toInt] at hr
  rw [hr]
  refine ⟨rfl, ?_, ?_⟩
  · rw [(setRefreshToken_fields _ _).2.2]
    rfl
  · intro h
    have h2 := congrArg OAuth2Service.m_tokensExpireIn h
    rw [(setRefreshToken_fields _ _).2.2, logout_eq] at h2
    exact absurd h2 (by decide)

/-- C9, amended: a reply that is not JSON is handled as the empty JSON object,
that is as a reply without an `error` key in which every field is missing: the
access token and the refresh token end empty, the refresh timer is not armed,
`expiresAt` is set to `now` (it is not reset to null), exactly one
tokens-received event is raised, with empty tokens and 0 seconds, and
no token-error event is raised; the other data members keep their values. -/
theorem C9_unparsable_reply (s : OAuth2Service) (now : Int) :
    (s.tokenRequestFinished now QJsonDocument.null).1 =
      { s.logout with m_tokensExpireIn := some now } ∧
    (s.tokenRequestFinished now QJsonDocument.null).1.m_accessToken = "" ∧
    (s.tokenRequestFinished now QJsonDocument.null).1.m_refreshToken = "" ∧
    (s.tokenRequestFinished now QJsonDocument.null).1.m_tokensExpireIn = some now ∧
    (s.tokenRequestFinished now QJsonDocument.null).1.refreshTimerArmed = false ∧
    (s.tokenRequestFinished now QJsonDocument.null).2 = [Effect.tokensReceived "" "" 0] ∧
    (s.tokenRequestFinished now QJsonDocument.null).2.filter Effect.isTokensRetrieveError = [] := by
  have hr := tokenRequestFinished_of_no_error s now QJsonDocument.null
    (by simp [QJsonDocument.object, QJsonObject.keys])
  simp only [QJsonDocument.object, QJsonObject.value, QJsonValue.toString, QJsonValue.toInt] at hr
  rw [hr, setRefreshToken_empty, logout_eq]
  simp [setAccessToken, setTokensExpireIn, refreshTimerArmed, not_mem_killTimer,
    Effect.isTokensRetrieveError]

/-- C10, as stated, fails: the object with the single member `access_token`
= "A" has no `error` key and lacks `refresh_token` and `expires_in`; the
handler stores "A" as the access token, sets `expiresAt` to `now` and raises
tokens-received("A", "", 0).  No token-error event is raised and the state is
not the state `logout()` leaves. -/
theorem C10_counterexample :
    ((withTokens "X" "R" (some 1000)).tokenRequestFinished 0
      (QJsonDocument.ofObject [("access_token", QJsonValue.string "A")])).2 =
      [Effect.tokensReceived "A" "" 0] ∧
    ((withTokens "X" "R" (some 1000)).tokenRequestFinished 0
      (QJsonDocument.ofObject [("access_token", QJsonValue.string "A")])).1.m_accessToken = "A" ∧
    ((withTokens "X" "R" (some 1000)).tokenRequestFinished 0
      (QJsonDocument.ofObject [("access_token", QJsonValue.string "A")])).1.m_tokensExpireIn =
      some 0 ∧
    ((withTokens "X" "R" (some 1000)).tokenRequestFinished 0
      (QJsonDocument.ofObject [("access_token", QJsonValue.string "A")])).1 ≠
      (withTokens "X" "R" (some 1000)).logout := by
  have hr := tokenRequestFinished_of_no_error (withTokens "X" "R" (some 1000)) 0
    (QJsonDocument.ofObject [("access_token", QJsonValue.string "A")]) (by decide)
  simp [QJsonDocument.object, QJsonObject.value, QJsonValue.toString, QJsonValue.toInt] at hr
  rw [hr]
  refine ⟨rfl, ?_, ?_, ?_⟩
  · rw [(setRefreshToken_fields _ _).2.1]
    rfl
  · rw [(setRefreshToken_fields _ _).2.2]
    rfl
  · intro h
    have h2 := congrArg OAuth2Service.m_tokensExpireIn h
    rw [(setRefreshToken_fields _ _).2.2, logout_eq] at h2
    exact absurd h2 (by decide)

/-- C10, amended: for a JSON object with no `error` key, and so for one that
lacks any of `access_token`, `refresh_token`, `expires_in`, the handler reads
every missing field as its default (the empty string, 0), stores the three readings
(access token, refresh token, `expiresAt` = `now` + `expires_in` seconds, so
`expiresAt` is never null afterwards) and raises exactly one tokens-received
event with them; it raises no token-error event.  A missing `refresh_token`
leaves the refresh token empty and the refresh timer not armed. -/
theorem C10_missing_fields_read_as_defaults (s : OAuth2Service) (now : Int)
    (root : QJsonObject) (hno : "error" ∉ root.keys) :
    (s.tokenRequestFinished now (QJsonDocument.ofObject root)).2 =
      [Effect.tokensReceived (root.value "access_token").toString
        (root.value "refresh_token").toString (root.value "expires_in").toInt] ∧
    (s.tokenRequestFinished now (QJsonDocument.ofObject root)).2.filter
      Effect.isTokensRetrieveError = [] ∧
    (s.tokenRequestFinished now (QJsonDocument.ofObject root)).1.m_accessToken =
      (root.value "access_token").toString ∧
    (s.tokenRequestFinished now (QJsonDocument.ofObject root)).1.m_refreshToken =
      (root.value "refresh_token").toString ∧
    (s.tokenRequestFinished now (QJsonDocument.ofObject root)).1.m_tokensExpireIn =
      some (now + 1000 * (root.value "expires_in").toInt) ∧
    ("access_token" ∉ root.keys → (root.value "access_token").toString = "") ∧
    ("refresh_token" ∉ root.keys → (root.value "refresh_token").toString = "" ∧
      (s.tokenRequestFinished now (QJsonDocument.ofObject root)).1.refreshTimerArmed = false) ∧
    ("expires_in" ∉ root.keys → (root.value "expires_in").toInt = 0) := by
  rw [tokenRequestFinished_of_no_error s now (QJsonDocument.ofObject root) hno]
  simp only [QJsonDocument.object]
  refine ⟨trivial, by simp [Effect.isTokensRetrieveError], ?_, ?_, ?_, ?_, ?_, ?_⟩
  · rw [(setRefreshToken_fields _ _).2.1]
    rfl
  · exact (setRefreshToken_fields _ _).1
  · rw [(setRefreshToken_fields _ _).2.2]
    rfl
  · intro h
    rw [QJsonObject.value_of_not_mem_keys root _ h]
    rfl
  · intro h
    rw [QJsonObject.value_of_not_mem_keys root _ h]
    refine ⟨rfl, ?_⟩
    rw [setRefreshToken_armed]
    rfl
  · intro h
    rw [QJsonObject.value_of_not_mem_keys root _ h]
    rfl

/-- C10, amended, at the object whose only member is `access_token`. -/
theorem C10_missing_fields_read_as_defaults_witness :
    ((withTokens "X" "R" (some 1000)).tokenRequestFinished 0
      (QJsonDocument.ofObject [("access_token", QJsonValue.string "A")])).2.filter
      Effect.isTokensRetrieveError = [] ∧
    ((withTokens "X" "R" (some 1000)).tokenRequestFinished 0
      (QJsonDocument.ofObject [("access_token", QJsonValue.string "A")])).1.m_refreshToken =
      "" :=
  ⟨(C10_missing_fields_read_as_defaults (withTokens "X" "R" (some 1000)) 0
      [("access_token", QJsonValue.string "A")] (by decide)).2.1,
   (C10_missing_fields_read_as_defaults (withTokens "X" "R" (some 1000)) 0
      [("access_token", QJsonValue.string "A")] (by decide)).2.2.2.1⟩

/-- C11: the handler is total on JSON objects.  For every JSON object without
an `error` key it completes with exactly one tokens-received event and the
three readings stored, where `access_token` and `refresh_token` are read as
the empty string when the member is missing or is not a string, and
`expires_in` is read as 0 when the member is missing or is not a whole
number. -/
theorem C11_handler_total_on_objects (s : OAuth2Service) (now : Int) (root : QJsonObject)
    (hno : "error" ∉ root.keys) :
    (s.tokenRequestFinished now (QJsonDocument.ofObject root)).2 =
      [Effect.tokensReceived (root.value "access_token").toString
        (root.value "refresh_token").toString (root.value "expires_in").toInt] ∧
    (s.tokenRequestFinished now (QJsonDocument.ofObject root)).1.m_accessToken =
      (root.value "access_token").toString ∧
    (s.tokenRequestFinished now (QJsonDocument.ofObject root)).1.m_refreshToken =
      (root.value "refresh_token").toString ∧
    (s.tokenRequestFinished now (QJsonDocument.ofObject root)).1.m_tokensExpireIn =
      some (now + 1000 * (root.value "expires_in").toInt) ∧
    (∀ key, (key ∉ root.keys ∨ ∀ text, root.value key ≠ QJsonValue.string text) →
      (root.value key).toString = "") ∧
    (∀ key, (key ∉ root.keys ∨ ∀ n : Int, root.value key ≠ QJsonValue.double (n : ℚ)) →
      (root.value key).toInt = 0) := by
  obtain ⟨h1, h2, h3, h4⟩ := tokenRequestFinished_fields s now root hno
  refine ⟨h4, h1, h2, h3, ?_, ?_⟩
  · rintro key (h | h)
    · rw [QJsonObject.value_of_not_mem_keys root _ h]
      rfl
    · exact QJsonValue_toString_of_not_string _ h
  · rintro key (h | h)
    · rw [QJsonObject.value_of_not_mem_keys root _ h]
      rfl
    · exact QJsonValue_toInt_of_not_whole _ h

/-- C11 at an object whose `access_token` is a number, whose `expires_in` is a
string and which has no `refresh_token`: tokens-received("", "", 0). -/
theorem C11_handler_total_on_objects_witness :
    ((withTokens "X" "R" (some 1000)).tokenRequestFinished 7 (QJsonDocument.ofObject
      [("access_token", QJsonValue.double 5), ("expires_in", QJsonValue.string "soon")])).2 =
      [Effect.tokensReceived "" "" 0] :=
  (C11_handler_total_on_objects (withTokens "X" "R" (some 1000)) 7
    [("access_token", QJsonValue.double 5), ("expires_in", QJsonValue.string "soon")]
    (by decide)).1

/-- C12, as stated, fails for a positive `expires_in` that the `int` of the
handler cannot hold: with non-empty tokens and `expires_in` = 2147483648,
handled at `now` = 0, `expiresAt` becomes `now` and `isFullyLoggedIn()` is
false at `now` and one second later, both inside the claimed interval. -/
theorem C12_counterexample :
    (fresh.tokenRequestFinished 0 (QJsonDocument.ofObject
      [("access_token", QJsonValue.string "A"), ("refresh_token", QJsonValue.string "R"),
       ("expires_in", QJsonValue.double ((2147483648 : Int) : ℚ))])).1.isFullyLoggedIn 0
      = false ∧
    (fresh.tokenRequestFinished 0 (QJsonDocument.ofObject
      [("access_token", QJsonValue.string "A"), ("refresh_token", QJsonValue.string "R"),
       ("expires_in", QJsonValue.double ((2147483648 : Int) : ℚ))])).1.isFullyLoggedIn 1000
      = false := by
  have hexp := (tokenRequestFinished_fields fresh 0
      [("access_token", QJsonValue.string "A"), ("refresh_token", QJsonValue.string "R"),
       ("expires_in", QJsonValue.double ((2147483648 : Int) : ℚ))] (by decide)).2.2.1
  have hzero : (QJsonObject.value
      [("access_token", QJsonValue.string "A"), ("refresh_token", QJsonValue.string "R"),
       ("expires_in", QJsonValue.double ((2147483648 : Int) : ℚ))] "expires_in").toInt = 0 := by
    simp [QJsonObject.value, QJsonValue.toInt, INT_MAX]
  rw [hzero] at hexp
  constructor
  · cases h : (fresh.tokenRequestFinished 0 (QJsonDocument.ofObject
      [("access_token", QJsonValue.string "A"), ("refresh_token", QJsonValue.string "R"),
       ("expires_in", QJsonValue.double ((2147483648 : Int) : ℚ))])).1.isFullyLoggedIn 0 with
    | false => rfl
    | true =>
      obtain ⟨⟨t, ht, hlt⟩, _⟩ := (isFullyLoggedIn_eq_true_iff _ _).1 h
      rw [hexp] at ht
      simp at ht
      omega
  · cases h : (fresh.tokenRequestFinished 0 (QJsonDocument.ofObject
      [("access_token", QJsonValue.string "A"), ("refresh_token", QJsonValue.string "R"),
       ("expires_in", QJsonValue.double ((2147483648 : Int) : ℚ))])).1.isFullyLoggedIn 1000 with
    | false => rfl
    | true =>
      obtain ⟨⟨t, ht, hlt⟩, _⟩ := (isFullyLoggedIn_eq_true_iff _ _).1 h
      rw [hexp] at ht
      simp at ht
      omega

/-- C12, amended: for a reply without an `error` key with non-empty
`access_token`, non-empty `refresh_token` and `expires_in` = E, where
0 < E and E is within the range of the C++ `int` (E at most 2147483647),
handled at `now`: afterwards `isFullyLoggedIn()` is true at every time t with
`now` <= t < `now` + E seconds and false at every t >= `now` + E seconds.
Times are in milliseconds. -/
theorem C12_success_leads_to_logged_in (s : OAuth2Service) (now : Int) (root : QJsonObject)
    (A R : String) (E : Int)
    (hno : "error" ∉ root.keys)
    (hA : root.value "access_token" = QJsonValue.string A) (hA0 : A ≠ "")
    (hR : root.value "refresh_token" = QJsonValue.string R) (hR0 : R ≠ "")
    (hE : root.value "expires_in" = QJsonValue.double (E : ℚ))
    (hpos : 0 < E) (hmax : E ≤ INT_MAX) :
    (∀ t : Int, now ≤ t → t < now + 1000 * E →
      (s.tokenRequestFinished now (QJsonDocument.ofObject root)).1.isFullyLoggedIn t = true) ∧
    (∀ t : Int, now + 1000 * E ≤ t →
      (s.tokenRequestFinished now (QJsonDocument.ofObject root)).1.isFullyLoggedIn t = false) := by
  obtain ⟨h1, h2, h3, _⟩ := tokenRequestFinished_fields s now root hno
  have hmin : INT_MIN ≤ E := by
    have : INT_MIN ≤ 0 := by decide
    omega
  rw [hA] at h1
  rw [hR] at h2
  rw [hE, QJsonValue.toInt_intCast E hmin hmax] at h3
  constructor
  · intro t _ hlt
    refine (isFullyLoggedIn_eq_true_iff _ t).2 ⟨⟨_, h3, hlt⟩, ?_, ?_⟩
    · rw [h1]
      exact hA0
    · rw [h2]
      exact hR0
  · intro t hle
    cases h : (s.tokenRequestFinished now (QJsonDocument.ofObject root)).1.isFullyLoggedIn t with
    | false => rfl
    | true =>
      obtain ⟨⟨u, hu, hlt⟩, _⟩ := (isFullyLoggedIn_eq_true_iff _ t).1 h
      rw [h3] at hu
      simp at hu
      omega

/-- C12, amended, at A = "A", R = "R", E = 3600, `now` = 5000 ms: logged in one
second before the expiry and not logged in at the expiry. -/
theorem C12_success_leads_to_logged_in_witness :
    (fresh.tokenRequestFinished 5000 (QJsonDocument.ofObject
      [("access_token", QJsonValue.string "A"), ("refresh_token", QJsonValue.string "R"),
       ("expires_in", QJsonValue.double ((3600 : Int) : ℚ))])).1.isFullyLoggedIn 3604000
      = true ∧
    (fresh.tokenRequestFinished 5000 (QJsonDocument.ofObject
      [("access_token", QJsonValue.string "A"), ("refresh_token", QJsonValue.string "R"),
       ("expires_in", QJsonValue.double ((3600 : Int) : ℚ))])).1.isFullyLoggedIn 3605000
      = false :=
  ⟨(C12_success_leads_to_logged_in fresh 5000
      [("access_token", QJsonValue.string "A"), ("refresh_token", QJsonValue.string "R"),
       ("expires_in", QJsonValue.double ((3600 : Int) : ℚ))]
      "A" "R" 3600 (by decide) (by simp [QJsonObject.value]) (by decide)
      (by simp [QJsonObject.value]) (by decide) (by simp [QJsonObject.value])
      (by decide) (by decide)).1 3604000 (by decide) (by decide),
   (C12_success_leads_to_logged_in fresh 5000
      [("access_token", QJsonValue.string "A"), ("refresh_token", QJsonValue.string "R"),
       ("expires_in", QJsonValue.double ((3600 : Int) : ℚ))]
      "A" "R" 3600 (by decide) (by simp [QJsonObject.value]) (by decide)
      (by simp [QJsonObject.value]) (by decide) (by simp [QJsonObject.value])
      (by decide) (by decide)).2 3605000 (by decide)⟩

/-- C13: `bearer()` returns "Bearer " followed by the access token when
`isFullyLoggedIn()` is true and the empty string otherwise; so its result is
empty exactly when the service is not fully logged in. -/
theorem C13_bearer_value (s : OAuth2Service) (now : Int) :
    (s.bearer now).1 =
      (if s.isFullyLoggedIn now = true then "Bearer " ++ s.m_accessToken else "") ∧
    ((s.bearer now).1 = "" ↔ s.isFullyLoggedIn now = false) := by
  cases h : s.isFullyLoggedIn now with
  | true =>
    rw [bearer_of_loggedIn s now h]
    simp [bearer_text_ne_empty]
  | false =>
    rw [bearer_of_not_loggedIn s now h]
    simp

/-- C14: `bearer()` never changes the state and never sends a request to the
token endpoint nor calls the login page.  On a fully logged-in service it has
no effect at all; otherwise its only effect is one notification, the login
prompt, whose click runs `login()`. -/
theorem C14_bearer_effects (s : OAuth2Service) (now : Int) :
    (s.bearer now).2.1 = s ∧
    (s.bearer now).2.2.filter Effect.isPost = [] ∧
    (s.bearer now).2.2.filter Effect.isLoginPage = [] ∧
    (s.bearer now).2.2 =
      (if s.isFullyLoggedIn now = true then []
       else [Effect.showGuiMessage "Inoreader: you have to login first"
         "Click here to login." MessageIcon.Critical (some Callback.login)]) := by
  cases h : s.isFullyLoggedIn now with
  | true =>
    rw [bearer_of_loggedIn s now h]
    simp
  | false =>
    rw [bearer_of_not_loggedIn s now h]
    simp [Effect.isPost, Effect.isLoginPage]

/-- C15: in every state reached from the constructor by any sequence of
operations (the setters, `bearer`, `login`, `logout`, the request functions,
the handling of a token reply, timer events, the reports of the login page)
at most one timer runs, and the refresh timer is armed exactly when the
refresh token is non-empty; when it is armed it is the only running timer. -/
theorem C15_refresh_timer_invariant
    (redirect authUrl tokenUrl clientId clientSecret scope : String) (ops : List Operation) :
    ((construct redirect authUrl tokenUrl clientId clientSecret scope).run ops).runningTimers.length
      ≤ 1 ∧
    (((construct redirect authUrl tokenUrl clientId clientSecret scope).run ops).refreshTimerArmed
        = true ↔
      ((construct redirect authUrl tokenUrl clientId clientSecret scope).run ops).m_refreshToken
        ≠ "") ∧
    ((construct redirect authUrl tokenUrl clientId clientSecret scope).run ops).runningTimers =
      (if ((construct redirect authUrl tokenUrl clientId clientSecret scope).run
            ops).m_refreshToken = "" then []
       else [((construct redirect authUrl tokenUrl clientId clientSecret scope).run
            ops).m_timerId]) := by
  have h := timersMatchToken_run ops _
    (timersMatchToken_construct redirect authUrl tokenUrl clientId clientSecret scope)
  generalize (construct redirect authUrl tokenUrl clientId clientSecret scope).run ops = s at h
  unfold timersMatchToken at h
  by_cases hr : s.m_refreshToken = ""
  · have he := (isEmpty_eq_true_iff _).2 hr
    rw [he] at h
    simp [refreshTimerArmed, h, hr]
  · have he := (isEmpty_eq_false_iff _).2 hr
    rw [he] at h
    simp [refreshTimerArmed, h, hr]

/-- C16: a tick of the armed refresh timer (the running timers have positive
identifiers, as Qt gives them) starts exactly one refresh exchange, a POST
to the token endpoint with the refresh body filled with the stored refresh
token, when `now` is later than `expiresAt` minus 900 seconds; a null
`expiresAt`, being earlier than every time, counts as such.  Otherwise, when
`now` is not later than `expiresAt` minus 900 seconds, the tick has no effect.
In both cases the state, and so the access token, the refresh token and
`expiresAt`, is unchanged.  Times are in milliseconds. -/
theorem C16_refresh_polling (s : OAuth2Service) (now : Int)
    (harmed : s.refreshTimerArmed = true) (hids : ∀ id ∈ s.runningTimers, 0 < id) :
    (s.timerEvent now s.m_timerId).1 = s ∧
    ((s.m_tokensExpireIn = none ∨ ∃ t, s.m_tokensExpireIn = some t ∧ t - 900000 < now) →
      (s.timerEvent now s.m_timerId).2.filter Effect.isPost =
        [Effect.post s.m_tokenUrl "application/x-www-form-urlencoded"
          (QString.arg (QString.arg (QString.arg (QString.arg
            "client_id=%1&client_secret=%2&refresh_token=%3&grant_type=%4"
            s.m_clientId) s.m_clientSecret) s.m_refreshToken) "refresh_token")] ∧
      (s.timerEvent now s.m_timerId).2.filter Effect.isLoginPage = []) ∧
    ((∃ t, s.m_tokensExpireIn = some t ∧ now ≤ t - 900000) →
      (s.timerEvent now s.m_timerId).2 = []) := by
  have hid : 0 ≤ s.m_timerId :=
    le_of_lt (hids _ (by simpa [refreshTimerArmed] using harmed))
  refine ⟨timerEvent_state s now _, ?_, ?_⟩
  · intro hdue
    rw [timerEvent_of_due s now hid hdue, refreshAccessToken_empty_arg]
    simp [Effect.isPost, Effect.isLoginPage]
  · rintro ⟨t, h, hle⟩
    rw [timerEvent_of_not_due s now t h hle]

/-- C16 with `now` = 0: with `expiresAt` ten minutes ahead the tick posts the
refresh body, with `expiresAt` thirty minutes ahead it does nothing. -/
theorem C16_refresh_polling_witness :
    ((withTokens "A" "R" (some 600000)).timerEvent 0 1).2.filter Effect.isPost =
      [Effect.post "https://example.org/token" "application/x-www-form-urlencoded"
        "client_id=id&client_secret=secret&refresh_token=R&grant_type=refresh_token"] ∧
    ((withTokens "A" "R" (some 1800000)).timerEvent 0 1).2 = [] :=
  ⟨((C16_refresh_polling (withTokens "A" "R" (some 600000)) 0 (by decide) (by decide)).2.1
      (Or.inr ⟨600000, by decide, by decide⟩)).1,
   (C16_refresh_polling (withTokens "A" "R" (some 1800000)) 0 (by decide) (by decide)).2.2
      ⟨1800000, by decide, by decide⟩⟩

/-- C17: for all strings, the interactive flow hands the login page the URL
made of the authorization URL followed by "?client_id=", the client id,
"&scope=", the scope, "&redirect_uri=", the redirect URL and
"&response_type=code&state=abcdef", together with the redirect URL as the
expected redirect; place markers inside the values are not read as markers.
This is the only call of the login page, and no request goes to the token
endpoint. -/
theorem C17_authorization_url (s : OAuth2Service) :
    s.retrieveAuthCode.2.filter Effect.isLoginPage =
      [Effect.loginPage
        (s.m_authUrl ++ "?client_id=" ++ s.m_clientId ++ "&scope=" ++ s.m_scope ++
          "&redirect_uri=" ++ s.m_redirectUrl ++ "&response_type=code&state=abcdef")
        s.m_redirectUrl] ∧
    s.retrieveAuthCode.2.filter Effect.isPost = [] ∧
    (({ fresh with m_clientId := "%1%2", m_scope := "%3", m_redirectUrl := "%1" } :
        OAuth2Service).retrieveAuthCode.2.filter Effect.isLoginPage =
      [Effect.loginPage
        "https://example.org/auth?client_id=%1%2&scope=%3&redirect_uri=%1&response_type=code&state=abcdef"
        "%1"]) := by
  refine ⟨?_, ?_, by decide⟩
  · simp [retrieveAuthCode, authUrl_template, Effect.isLoginPage, String.append_assoc]
  · simp [retrieveAuthCode, Effect.isPost]

/-- C18 fails on the code: the body is built with a chain of one-argument
`arg` calls, each of which reads the text inserted before it again.  With the
authorization code "4%2Fabc" the `%2` of the code is taken for a place
marker: the grant type lands inside the code, the redirect URL lands under
`grant_type`, and `redirect_uri` keeps the marker `%5`.  The body is not
"client_id=id&client_secret=secret&code=4%2Fabc&redirect_uri=http://localhost&grant_type=authorization_code". -/
theorem C18_auth_code_body_at_marker :
    (fresh.retrieveAccessToken "4%2Fabc").2 =
      [Effect.post "https://example.org/token" "application/x-www-form-urlencoded"
        "client_id=id&client_secret=secret&code=4authorization_codeFabc&redirect_uri=%5&grant_type=http://localhost"] ∧
    (fresh.retrieveAccessToken "4%2Fabc").2 ≠
      [Effect.post "https://example.org/token" "application/x-www-form-urlencoded"
        ("client_id=" ++ fresh.m_clientId ++ "&client_secret=" ++ fresh.m_clientSecret ++
          "&code=" ++ "4%2Fabc" ++ "&redirect_uri=" ++ fresh.m_redirectUrl ++
          "&grant_type=" ++ fresh.m_tokenGrantType)] := by
  decide

/-- C19 fails on the code, by the same chain of one-argument `arg` calls as
C18: with the stored refresh token "1%2Fxyz" the `%2` of the token is taken
for a place marker, the literal `refresh_token` lands inside the token and
`grant_type` keeps the marker `%4`.  The body is not
"client_id=id&client_secret=secret&refresh_token=1%2Fxyz&grant_type=refresh_token". -/
theorem C19_refresh_body_at_marker :
    ((withTokens "A" "1%2Fxyz" none).refreshAccessToken "").2.filter Effect.isPost =
      [Effect.post "https://example.org/token" "application/x-www-form-urlencoded"
        "client_id=id&client_secret=secret&refresh_token=1refresh_tokenFxyz&grant_type=%4"] ∧
    ((withTokens "A" "1%2Fxyz" none).refreshAccessToken "").2.filter Effect.isPost ≠
      [Effect.post "https://example.org/token" "application/x-www-form-urlencoded"
        ("client_id=" ++ "id" ++ "&client_secret=" ++ "secret" ++ "&refresh_token=" ++
          "1%2Fxyz" ++ "&grant_type=refresh_token")] := by
  decide

/-- C20: when the login page reports that the user rejected the
authorization, the state becomes the state `logout()` leaves (access token
empty, refresh token empty, `expiresAt` null, refresh timer not armed), exactly
one authorization-failed event is raised and nothing else happens: no request
goes to the token endpoint. -/
theorem C20_authorization_rejected (s : OAuth2Service) :
    s.authRejected.1 = s.logout ∧
    s.authRejected.1.m_accessToken = "" ∧
    s.authRejected.1.m_refreshToken = "" ∧
    s.authRejected.1.m_tokensExpireIn = none ∧
    s.authRejected.1.refreshTimerArmed = false ∧
    s.authRejected.2 = [Effect.authFailed] ∧
    s.authRejected.2.filter Effect.isPost = [] := by
  refine ⟨rfl, ?_, ?_, ?_, ?_, rfl, ?_⟩
  · show s.logout.m_accessToken = ""
    rw [logout_eq]
  · show s.logout.m_refreshToken = ""
    rw [logout_eq]
  · show s.logout.m_tokensExpireIn = none
    rw [logout_eq]
  · show s.logout.refreshTimerArmed = false
    rw [logout_eq]
    simp [refreshTimerArmed, not_mem_killTimer]
  · simp [authRejected, Effect.isPost]

/-- C21: right after the constructor, with any arguments, the access token and
the refresh token are empty, `expiresAt` is null, no timer runs (so the
refresh timer is not armed), the token grant type is "authorization_code" and
`isFullyLoggedIn()` is false at every `now`; the client id, the client secret,
the scope, the authorization URL and the token URL are the arguments. -/
theorem C21_initial_state (redirect authUrl tokenUrl clientId clientSecret scope : String) :
    (construct redirect authUrl tokenUrl clientId clientSecret scope).m_accessToken = "" ∧
    (construct redirect authUrl tokenUrl clientId clientSecret scope).m_refreshToken = "" ∧
    (construct redirect authUrl tokenUrl clientId clientSecret scope).m_tokensExpireIn = none ∧
    (construct redirect authUrl tokenUrl clientId clientSecret scope).runningTimers = [] ∧
    (construct redirect authUrl tokenUrl clientId clientSecret scope).refreshTimerArmed = false ∧
    (construct redirect authUrl tokenUrl clientId clientSecret scope).m_tokenGrantType =
      "authorization_code" ∧
    (∀ now : Int,
      (construct redirect authUrl tokenUrl clientId clientSecret scope).isFullyLoggedIn now
        = false) ∧
    (construct redirect authUrl tokenUrl clientId clientSecret scope).m_clientId = clientId ∧
    (construct redirect authUrl tokenUrl clientId clientSecret scope).m_clientSecret =
      clientSecret ∧
    (construct redirect authUrl tokenUrl clientId clientSecret scope).m_scope = scope ∧
    (construct redirect authUrl tokenUrl clientId clientSecret scope).m_authUrl = authUrl ∧
    (construct redirect authUrl tokenUrl clientId clientSecret scope).m_tokenUrl = tokenUrl :=
  ⟨rfl, rfl, rfl, rfl, rfl, rfl, fun now => isFullyLoggedIn_of_null _ now rfl,
    rfl, rfl, rfl, rfl, rfl⟩

/-- C22, as stated, fails: `setClientId` and `setClientSecret` are member
functions of the service; after them the client id and the client secret are
their arguments, not the values given to the constructor. -/
theorem C22_counterexample :
    (fresh.run [Operation.setClientId "other", Operation.setClientSecret "changed"]).m_clientId
      = "other" ∧
    (fresh.run [Operation.setClientId "other", Operation.setClientSecret "changed"]).m_clientSecret
      = "changed" ∧
    (fresh.run [Operation.setClientId "other", Operation.setClientSecret "changed"]).m_clientId
      ≠ fresh.m_clientId ∧
    (fresh.run [Operation.setClientId "other", Operation.setClientSecret "changed"]).m_clientSecret
      ≠ fresh.m_clientSecret := by
  decide

/-- C22, amended: the scope is immutable after construction: after every
sequence of operations it is the value given to the constructor.  The client
id and the client secret are changed by `setClientId` and `setClientSecret`
only: after every sequence of operations without `setClientId` the client id
is the constructor value, and likewise for the client secret. -/
theorem C22_static_values
    (redirect authUrl tokenUrl clientId clientSecret scope : String) (ops : List Operation) :
    ((construct redirect authUrl tokenUrl clientId clientSecret scope).run ops).m_scope = scope ∧
    ((∀ x, Operation.setClientId x ∉ ops) →
      ((construct redirect authUrl tokenUrl clientId clientSecret scope).run ops).m_clientId
        = clientId) ∧
    ((∀ x, Operation.setClientSecret x ∉ ops) →
      ((construct redirect authUrl tokenUrl clientId clientSecret scope).run ops).m_clientSecret
        = clientSecret) := by
  refine ⟨?_, ?_, ?_⟩
  · rw [run_scope]
    rfl
  · intro h
    rw [run_clientId ops _ h]
    rfl
  · intro h
    rw [run_clientSecret ops _ h]
    rfl

/-- C23, as stated, fails: the reply with the single member `access_token` =
"A" is not a full success (it lacks `refresh_token` and `expires_in`), yet the
handler overwrites the access token "X" with "A", a value taken from that
reply, and overwrites the refresh token "R" and the expiry with defaults. -/
theorem C23_counterexample :
    (withTokens "X" "R" (some 1000)).m_accessToken = "X" ∧
    ((withTokens "X" "R" (some 1000)).tokenRequestFinished 0
      (QJsonDocument.ofObject [("access_token", QJsonValue.string "A")])).1.m_accessToken = "A" ∧
    ((withTokens "X" "R" (some 1000)).tokenRequestFinished 0
      (QJsonDocument.ofObject [("access_token", QJsonValue.string "A")])).1.m_refreshToken = "" ∧
    ((withTokens "X" "R" (some 1000)).tokenRequestFinished 0
      (QJsonDocument.ofObject [("access_token", QJsonValue.string "A")])).1.m_tokensExpireIn
      = some 0 := by
  obtain ⟨h1, h2, h3, _⟩ := tokenRequestFinished_fields (withTokens "X" "R" (some 1000)) 0
    [("access_token", QJsonValue.string "A")] (by decide)
  refine ⟨by decide, ?_, ?_, ?_⟩
  · rw [h1]
    rfl
  · rw [h2]
    rfl
  · rw [h3]
    rfl

/-- C23, amended: the handler always writes the three fields as a group and
never keeps one of them: after it the triple (access token, refresh token,
`expiresAt`) does not depend on the prior state.  When the reply has an
`error` key the triple is reset (empty, empty, null); otherwise it is
overwritten with the three readings of the reply, a missing or ill-typed
field being read as the empty string or 0, `expiresAt` being `now` plus the
`expires_in` reading. -/
theorem C23_triple_written_as_group (s : OAuth2Service) (now : Int) (doc : QJsonDocument) :
    ((s.tokenRequestFinished now doc).1.m_accessToken,
      (s.tokenRequestFinished now doc).1.m_refreshToken,
      (s.tokenRequestFinished now doc).1.m_tokensExpireIn) =
    (if "error" ∈ doc.object.keys then ("", "", none)
     else ((doc.object.value "access_token").toString,
       (doc.object.value "refresh_token").toString,
       some (now + 1000 * (doc.object.value "expires_in").toInt))) := by
  by_cases he : "error" ∈ doc.object.keys
  · rw [if_pos he, tokenRequestFinished_of_error s now doc he, logout_eq]
  · rw [if_neg he, tokenRequestFinished_object]
    obtain ⟨h1, h2, h3, _⟩ := tokenRequestFinished_fields s now doc.object he
    rw [h1, h2, h3]

/-- C25: after a reply that is a JSON object without an `error` key the stored
refresh token is the `refresh_token` reading of the reply, whatever it was
before.  When the reply has no `refresh_token` member, the refresh token ends
empty, the refresh timer is not armed and `isFullyLoggedIn()` is false at
every time, although exactly one tokens-received event was raised. -/
theorem C25_refresh_token_not_preserved (s : OAuth2Service) (now : Int) (root : QJsonObject)
    (hno : "error" ∉ root.keys) :
    (s.tokenRequestFinished now (QJsonDocument.ofObject root)).1.m_refreshToken =
      (root.value "refresh_token").toString ∧
    ("refresh_token" ∉ root.keys →
      (s.tokenRequestFinished now (QJsonDocument.ofObject root)).1.m_refreshToken = "" ∧
      (s.tokenRequestFinished now (QJsonDocument.ofObject root)).1.refreshTimerArmed = false ∧
      (∀ t : Int,
        (s.tokenRequestFinished now (QJsonDocument.ofObject root)).1.isFullyLoggedIn t = false) ∧
      (s.tokenRequestFinished now (QJsonDocument.ofObject root)).2 =
        [Effect.tokensReceived (root.value "access_token").toString ""
          (root.value "expires_in").toInt]) := by
  obtain ⟨_, h2, _, h4⟩ := tokenRequestFinished_fields s now root hno
  refine ⟨h2, ?_⟩
  intro hmiss
  have hv : (root.value "refresh_token").toString = "" := by
    rw [QJsonObject.value_of_not_mem_keys root _ hmiss]
    rfl
  have hr : (s.tokenRequestFinished now (QJsonDocument.ofObject root)).1.m_refreshToken = "" := by
    rw [h2, hv]
  refine ⟨hr, ?_, ?_, ?_⟩
  · rw [tokenRequestFinished_of_no_error s now (QJsonDocument.ofObject root) hno,
      setRefreshToken_armed]
    show (!isEmpty (root.value "refresh_token").toString) = false
    rw [hv]
    rfl
  · intro t
    cases h : (s.tokenRequestFinished now (QJsonDocument.ofObject root)).1.isFullyLoggedIn t with
    | false => rfl
    | true => exact absurd hr ((isFullyLoggedIn_eq_true_iff _ t).1 h).2.2
  · rw [h4, hv]

/-- C25 at a refresh reply that brings a new access token and an expiry but no
refresh token, handled by a logged-in service. -/
theorem C25_refresh_token_not_preserved_witness :
    ((withTokens "A" "R" (some 1000)).tokenRequestFinished 0 (QJsonDocument.ofObject
      [("access_token", QJsonValue.string "B"),
       ("expires_in", QJsonValue.double ((3600 : Int) : ℚ))])).1.m_refreshToken = "" ∧
    ((withTokens "A" "R" (some 1000)).tokenRequestFinished 0 (QJsonDocument.ofObject
      [("access_token", QJsonValue.string "B"),
       ("expires_in", QJsonValue.double ((3600 : Int) : ℚ))])).1.isFullyLoggedIn 1 = false :=
  ⟨((C25_refresh_token_not_preserved (withTokens "A" "R" (some 1000)) 0
      [("access_token", QJsonValue.string "B"),
       ("expires_in", QJsonValue.double ((3600 : Int) : ℚ))] (by decide)).2 (by decide)).1,
   ((C25_refresh_token_not_preserved (withTokens "A" "R" (some 1000)) 0
      [("access_token", QJsonValue.string "B"),
       ("expires_in", QJsonValue.double ((3600 : Int) : ℚ))] (by decide)).2
      (by decide)).2.2.1 1⟩

/-- C27: in a state with a non-empty refresh token whose refresh timer is armed
(the running timers have positive identifiers, as Qt gives them): when
`login()` starts a silent refresh, that is when `expiresAt` is null or
earlier than `now`, a tick of the refresh timer at the same `now` starts the
same refresh, with the same POST; and when a tick posts nothing, `login()`
returns true. -/
theorem C27_tick_as_eager_as_login (s : OAuth2Service) (now : Int)
    (hr : s.m_refreshToken ≠ "") (harmed : s.refreshTimerArmed = true)
    (hids : ∀ id ∈ s.runningTimers, 0 < id) :
    ((s.m_tokensExpireIn = none ∨ ∃ t, s.m_tokensExpireIn = some t ∧ t < now) →
      s.login now = (false, s.refreshAccessToken "") ∧
      s.timerEvent now s.m_timerId = s.refreshAccessToken "" ∧
      (s.timerEvent now s.m_timerId).2.filter Effect.isPost ≠ []) ∧
    ((s.timerEvent now s.m_timerId).2.filter Effect.isPost = [] → (s.login now).1 = true) := by
  have hid : 0 ≤ s.m_timerId :=
    le_of_lt (hids _ (by simpa [refreshTimerArmed] using harmed))
  have hpost : (s.refreshAccessToken "").2.filter Effect.isPost ≠ [] := by
    rw [refreshAccessToken_empty_arg]
    simp [Effect.isPost]
  constructor
  · intro hx
    have hdue : s.m_tokensExpireIn = none ∨
        ∃ t, s.m_tokensExpireIn = some t ∧ t - 900000 < now := by
      rcases hx with h | ⟨t, h, hlt⟩
      · exact Or.inl h
      · exact Or.inr ⟨t, h, by omega⟩
    refine ⟨login_of_expired s now hr hx, timerEvent_of_due s now hid hdue, ?_⟩
    rw [timerEvent_of_due s now hid hdue]
    exact hpost
  · intro hnone
    cases h : s.m_tokensExpireIn with
    | none =>
      rw [timerEvent_of_due s now hid (Or.inl h)] at hnone
      exact absurd hnone hpost
    | some t =>
      by_cases hlt : t - 900000 < now
      · rw [timerEvent_of_due s now hid (Or.inr ⟨t, h, hlt⟩)] at hnone
        exact absurd hnone hpost
      · exact (login_fst_eq_true_iff s now).2 ⟨hr, t, h, by omega⟩

/-- C27 with `now` = 0: with the expiry one second in the past both `login()`
and the tick post a refresh; with the expiry thirty minutes ahead the tick
posts nothing and `login()` returns true. -/
theorem C27_tick_as_eager_as_login_witness :
    ((withTokens "A" "R" (some (-1000))).timerEvent 0 1).2.filter Effect.isPost ≠ [] ∧
    ((withTokens "A" "R" (some 1800000)).login 0).1 = true :=
  ⟨((C27_tick_as_eager_as_login (withTokens "A" "R" (some (-1000))) 0
      (by decide) (by decide) (by decide)).1 (Or.inr ⟨-1000, by decide, by decide⟩)).2.2,
   (C27_tick_as_eager_as_login (withTokens "A" "R" (some 1800000)) 0
      (by decide) (by decide) (by decide)).2 (by decide)⟩

/-- C28 fails on the code, by the same chain of one-argument `arg` calls as C18
and C19: `refreshAccessToken("1%2Fxyz")` does not send "1%2Fxyz" as the
`refresh_token` value; the `%2` of the token is taken for a place marker and
the body carries `refresh_token=1refresh_tokenFxyz`.  The same happens with
the stored refresh token when the argument is empty.  The call leaves the
state as it is in both cases. -/
theorem C28_refresh_argument_at_marker :
    ((withTokens "A" "R" (some 1000)).refreshAccessToken "1%2Fxyz").2.filter Effect.isPost =
      [Effect.post "https://example.org/token" "application/x-www-form-urlencoded"
        "client_id=id&client_secret=secret&refresh_token=1refresh_tokenFxyz&grant_type=%4"] ∧
    ((withTokens "A" "1%2Fxyz" (some 1000)).refreshAccessToken "").2.filter Effect.isPost =
      [Effect.post "https://example.org/token" "application/x-www-form-urlencoded"
        "client_id=id&client_secret=secret&refresh_token=1refresh_tokenFxyz&grant_type=%4"] ∧
    ((withTokens "A" "R" (some 1000)).refreshAccessToken "1%2Fxyz").1 =
      withTokens "A" "R" (some 1000) ∧
    ((withTokens "A" "1%2Fxyz" (some 1000)).refreshAccessToken "").1 =
      withTokens "A" "1%2Fxyz" (some 1000) := by
  decide

/-- C26, as stated, fails: the values are put into the body as they are, with
no percent-encoding.  With the authorization code "x&y" the parsed body has
`code` = "x" and an extra name "y"; with the stored refresh token "a+b" the
parsed `refresh_token` is "a b". -/
theorem C26_counterexample :
    ((fresh.retrieveAccessToken "x&y").2.filterMap Effect.content).map FormUrlEncoded.parse =
      [[("client_id", "id"), ("client_secret", "secret"), ("code", "x"), ("y", ""),
        ("redirect_uri", "http://localhost"), ("grant_type", "authorization_code")]] ∧
    (((withTokens "A" "a+b" none).refreshAccessToken "").2.filterMap Effect.content).map
        FormUrlEncoded.parse =
      [[("client_id", "id"), ("client_secret", "secret"), ("refresh_token", "a b"),
        ("grant_type", "refresh_token")]] := by
  decide

/-- C26, amended: when the client id, the client secret, the authorization
code, the refresh token, the redirect URL and the token grant type hold none
of the characters `&`, `%` and `+` (they may hold `=`), parsing the body of
the authorization-code exchange as application/x-www-form-urlencoded gives
exactly the pairs `client_id`, `client_secret`, `code`, `redirect_uri`,
`grant_type` with exactly those values, and parsing the body of the refresh
exchange gives exactly `client_id`, `client_secret`, `refresh_token` and
`grant_type` = "refresh_token". -/
theorem C26_round_trip_of_plain_values (s : OAuth2Service) (auth_code : String)
    (hid : FormUrlEncoded.isPlain s.m_clientId = true)
    (hsecret : FormUrlEncoded.isPlain s.m_clientSecret = true)
    (hcode : FormUrlEncoded.isPlain auth_code = true)
    (hredirect : FormUrlEncoded.isPlain s.m_redirectUrl = true)
    (hgrant : FormUrlEncoded.isPlain s.m_tokenGrantType = true)
    (htoken : FormUrlEncoded.isPlain s.m_refreshToken = true) :
    ((s.retrieveAccessToken auth_code).2.filterMap Effect.content).map FormUrlEncoded.parse =
      [[("client_id", s.m_clientId), ("client_secret", s.m_clientSecret), ("code", auth_code),
        ("redirect_uri", s.m_redirectUrl), ("grant_type", s.m_tokenGrantType)]] ∧
    ((s.refreshAccessToken "").2.filterMap Effect.content).map FormUrlEncoded.parse =
      [[("client_id", s.m_clientId), ("client_secret", s.m_clientSecret),
        ("refresh_token", s.m_refreshToken), ("grant_type", "refresh_token")]] := by
  have p1 := ((FormUrlEncoded.isPlain_iff _).1 hid).2.1
  have p2 := ((FormUrlEncoded.isPlain_iff _).1 hsecret).2.1
  have p3 := ((FormUrlEncoded.isPlain_iff _).1 hcode).2.1
  have p4 := ((FormUrlEncoded.isPlain_iff _).1 hgrant).2.1
  have p5 := ((FormUrlEncoded.isPlain_iff _).1 htoken).2.1
  constructor
  · rw [retrieveAccessToken_of_no_marker s auth_code p1 p2 p3 p4]
    simp [Effect.content,
      FormUrlEncoded.parse_code_body _ _ _ _ _ hid hsecret hcode hredirect hgrant]
  · rw [refreshAccessToken_empty_arg, QString.refresh_content_of_no_marker _ _ _ p1 p2 p5]
    simp [Effect.content, FormUrlEncoded.parse_refresh_body _ _ _ hid hsecret htoken]

/-- C26, amended, at the fresh service with the authorization code "4/0Ab=" and
the stored refresh token "R". -/
theorem C26_round_trip_of_plain_values_witness :
    ((fresh.retrieveAccessToken "4/0Ab=").2.filterMap Effect.content).map
        FormUrlEncoded.parse =
      [[("client_id", "id"), ("client_secret", "secret"), ("code", "4/0Ab="),
        ("redirect_uri", "http://localhost"), ("grant_type", "authorization_code")]] :=
  (C26_round_trip_of_plain_values fresh "4/0Ab=" (by decide) (by decide) (by decide)
    (by decide) (by decide) (by decide)).1

end OAuth2Service

end OAuth2

namespace Gui

/-! ## Facts about the tab widget -/

namespace TabWidget

theorem setIndex_of_lt (tabs : List Tab) (p : Nat) (h : p < tabs.length) :
    ∃ r, setIndex tabs (p : Int) = some r ∧ r.map Tab.ident = tabs.map Tab.ident ∧
      r = tabs.set p { tabs[p] with index := (p : Int) } := by
  refine ⟨tabs.set p { tabs[p] with index := (p : Int) }, ?_, ?_, rfl⟩
  · unfold setIndex
    have h0 : (0 : Int) ≤ (p : Int) := Int.ofNat_nonneg p
    simp [h0, List.getElem?_eq_getElem h, List.get?_eq_getElem?]
  · rw [List.map_set]
    apply List.ext_getElem
    · simp
    · intro n h1 h2
      rw [List.getElem_set]
      split
      · next hpn => subst hpn; simp [Tab.ident]
      · rfl

theorem fixContentsLoop_idents (n : Nat) (p : Nat) (tabs : List Tab) (h : p + n ≤ tabs.length) :
    ∃ r, fixContentsLoop n (p : Int) tabs = some r ∧ r.map Tab.ident = tabs.map Tab.ident := by
  induction n generalizing p tabs with
  | zero => exact ⟨tabs, rfl, rfl⟩
  | succ n ih =>
    obtain ⟨r1, h1, h2, _⟩ := setIndex_of_lt tabs p (by omega)
    have hlen : r1.length = tabs.length := by
      have := congrArg List.length h2
      simpa using this
    obtain ⟨r, h3, h4⟩ := ih (p + 1) r1 (by omega)
    refine ⟨r, ?_, h4.trans h2⟩
    simp only [fixContentsLoop, h1]
    exact_mod_cast h3

theorem fixContentsAfterMove_idents (tabs : List Tab) (a b : Nat) (hab : a ≤ b)
    (hb : b < tabs.length) :
    ∃ r, fixContentsAfterMove tabs (a : Int) (b : Int) = some r ∧
      r.map Tab.ident = tabs.map Tab.ident := by
  have hmin : min (a : Int) (b : Int) = (a : Int) := min_eq_left (by exact_mod_cast hab)
  have hmax : max (a : Int) (b : Int) = (b : Int) := max_eq_right (by exact_mod_cast hab)
  have hn : ((b : Int) - (a : Int) + 1).toNat = b - a + 1 := by omega
  obtain ⟨r, h1, h2⟩ := fixContentsLoop_idents (b - a + 1) a tabs (by omega)
  refine ⟨r, ?_, h2⟩
  unfold fixContentsAfterMove
  simp only [hmin, hmax, hn]
  exact h1

theorem tabRemoved_idents (tabs : List Tab) (index : Nat) :
    ∃ r, tabRemoved tabs (index : Int) = some r ∧ r.map Tab.ident = tabs.map Tab.ident := by
  unfold tabRemoved
  simp only [count]
  by_cases h : (index : Int) < (tabs.length : Int) ∧ (tabs.length : Int) > 1
  · rw [if_pos h]
    have h1 : index < tabs.length := by omega
    have h2 : ((tabs.length : Int) - 1) = ((tabs.length - 1 : Nat) : Int) := by omega
    rw [h2]
    exact fixContentsAfterMove_idents tabs index (tabs.length - 1) (by omega) (by omega)
  · rw [if_neg h]
    exact ⟨tabs, rfl, rfl⟩

theorem map_ident_eraseIdx (tabs : List Tab) (i : Nat) :
    (tabs.eraseIdx i).map Tab.ident = (tabs.map Tab.ident).eraseIdx i := by
  induction tabs generalizing i with
  | nil => rfl
  | cons t ts ih =>
    cases i with
    | zero => rfl
    | succ j => simp [List.eraseIdx, ih j]

theorem removeTab_idents (tabs : List Tab) (index : Nat) (clear_from_memory : Bool)
    (h : index < tabs.length) :
    ∃ r, removeTab tabs (index : Int) clear_from_memory = some r ∧
      r.map Tab.ident = (tabs.map Tab.ident).eraseIdx index := by
  unfold removeTab
  have h1 : (0 : Int) ≤ (index : Int) ∧ (index : Int) < count tabs := by
    simp only [count]
    omega
  rw [if_pos h1]
  obtain ⟨r, h2, h3⟩ := tabRemoved_idents (tabs.eraseIdx index) index
  refine ⟨r, ?_, ?_⟩
  · simpa using h2
  · rw [h3, map_ident_eraseIdx]

theorem tabType_of_getElem (tabs : List Tab) (index : Nat) (x : Nat × TabType)
    (hx : (tabs.map Tab.ident)[index]? = some x) :
    tabType tabs (index : Int) = x.2 := by
  unfold tabType
  have h0 : (0 : Int) ≤ (index : Int) := Int.ofNat_nonneg index
  rw [List.getElem?_map] at hx
  cases ht : tabs[index]? with
  | none => simp [ht] at hx
  | some t =>
    simp only [ht, Option.map_some', Option.some.injEq] at hx
    subst hx
    simp [h0, List.get?_eq_getElem?, ht, Tab.ident]

theorem closeTab_idents (tabs : List Tab) (index : Nat) (x : Nat × TabType)
    (hx : (tabs.map Tab.ident)[index]? = some x) :
    ∃ r, closeTab tabs (index : Int) = some (!staysOpen x, r) ∧
      r.map Tab.ident =
        (if staysOpen x = true then tabs.map Tab.ident
         else (tabs.map Tab.ident).eraseIdx index) := by
  have h : index < tabs.length := by
    have := (List.getElem?_eq_some_iff.1 hx).1
    simpa using this
  unfold closeTab
  rw [tabType_of_getElem tabs index x hx]
  by_cases hc : x.2 = TabType.Closable
  · obtain ⟨r, h1, h2⟩ := removeTab_idents tabs index true h
    refine ⟨r, ?_, ?_⟩
    · simp [hc, h1, staysOpen]
    · simp [hc, h2, staysOpen]
  · by_cases hd : x.2 = TabType.DownloadManager
    · obtain ⟨r, h1, h2⟩ := removeTab_idents tabs index false h
      refine ⟨r, ?_, ?_⟩
      · simp [hc, hd, h1, staysOpen]
      · simp [hd, h2, staysOpen]
    · refine ⟨tabs, ?_, ?_⟩
      · simp [hc, hd, staysOpen]
      · simp [hc, hd, staysOpen]

theorem take_succ_of_getElem {α : Type} (L : List α) (k : Nat) (x : α) (h : L[k]? = some x) :
    L.take (k + 1) = L.take k ++ [x] ∧ L.drop k = x :: L.drop (k + 1) := by
  induction L generalizing k with
  | nil => simp at h
  | cons a as ih =>
    cases k with
    | zero =>
      simp at h
      subst h
      simp
    | succ j =>
      have hj : as[j]? = some x := by simpa using h
      obtain ⟨h1, h2⟩ := ih j hj
      constructor
      · simp [List.take, h1]
      · simpa using h2

theorem eraseIdx_take_drop {α : Type} (L : List α) (k : Nat) :
    (L.eraseIdx k).take k = L.take k ∧ (L.eraseIdx k).drop k = L.drop (k + 1) := by
  induction L generalizing k with
  | nil => simp
  | cons a as ih =>
    cases k with
    | zero => simp
    | succ j =>
      obtain ⟨h1, h2⟩ := ih j
      simp [List.eraseIdx, h1, h2]

theorem eraseIdx_append_cons {α : Type} (pre : List α) (c : α) (post : List α) (j : Nat) :
    (pre ++ c :: post).eraseIdx (pre.length + 1 + j) = pre ++ c :: post.eraseIdx j := by
  induction pre with
  | nil =>
    have : 0 + 1 + j = j + 1 := by omega
    simp [this, List.eraseIdx]
  | cons a as ih =>
    have : (a :: as).length + 1 + j = (as.length + 1 + j) + 1 := by simp; omega
    rw [this]
    simp [List.eraseIdx, ih]

/-- What one round of a closing loop does to the tabs at and above position
`k`, in terms of what stays open. -/
theorem close_round {α : Type} (keep : α → Bool) (L : List α) (k : Nat) (x : α)
    (h : L[k]? = some x) :
    ((if keep x = true then L else L.eraseIdx k).take k).filter keep ++
        (if keep x = true then L else L.eraseIdx k).drop k =
      (L.take (k + 1)).filter keep ++ L.drop (k + 1) := by
  obtain ⟨h1, h2⟩ := take_succ_of_getElem L k x h
  by_cases hk : keep x = true
  · simp [hk, h1, h2]
  · obtain ⟨h3, h4⟩ := eraseIdx_take_drop L k
    simp [hk, h1, h3, h4]

theorem closeAllTabsLoop_idents (k : Nat) (tabs : List Tab) (h : k ≤ tabs.length) :
    ∃ r, closeAllTabsLoop k tabs = some r ∧
      r.map Tab.ident =
        ((tabs.map Tab.ident).take k).filter staysOpen ++ (tabs.map Tab.ident).drop k := by
  induction k generalizing tabs with
  | zero => exact ⟨tabs, rfl, by simp⟩
  | succ k ih =>
    have hk : k < (tabs.map Tab.ident).length := by simpa using h
    obtain ⟨r1, h1, h2⟩ := closeTab_idents tabs k _ (List.getElem?_eq_getElem hk)
    have hlen : k ≤ r1.length := by
      have hl := congrArg List.length h2
      have hk2 : k < tabs.length := h
      by_cases hs : staysOpen (tabs.map Tab.ident)[k] = true
      · rw [if_pos hs] at hl
        simp at hl
        omega
      · rw [if_neg hs] at hl
        simp [List.length_eraseIdx, hk2] at hl
        omega
    obtain ⟨r, h3, h4⟩ := ih r1 hlen
    refine ⟨r, ?_, ?_⟩
    · simp only [closeAllTabsLoop, h1]
      exact h3
    · rw [h4, h2]
      exact close_round staysOpen _ k _ (List.getElem?_eq_getElem hk)

theorem exceptLoop_eq_allLoop (k : Nat) (active : Int) (tabs : List Tab)
    (h : (k : Int) ≤ active) :
    closeAllTabsExceptCurrentLoop k active tabs = closeAllTabsLoop k tabs := by
  induction k generalizing active tabs with
  | zero => rfl
  | succ k ih =>
    have hne : ((k : Nat) : Int) ≠ active := by omega
    have hlt : ((k : Nat) : Int) < active := by omega
    simp only [closeAllTabsExceptCurrentLoop, closeAllTabsLoop, hne, hlt, ne_eq,
      not_false_eq_true, if_true]
    cases closeTab tabs k with
    | none => rfl
    | some r => exact ih (active - 1) r.2 (by omega)

theorem exceptLoop_idents (j : Nat) (tabs : List Tab) (pre : List (Nat × TabType))
    (c : Nat × TabType) (post : List (Nat × TabType))
    (hL : tabs.map Tab.ident = pre ++ c :: post) (hj : j ≤ post.length) :
    ∃ r, closeAllTabsExceptCurrentLoop (pre.length + 1 + j) (pre.length : Int) tabs = some r ∧
      r.map Tab.ident =
        pre.filter staysOpen ++ c :: ((post.take j).filter staysOpen ++ post.drop j) := by
  induction j generalizing tabs post with
  | zero =>
    have hlen : pre.length ≤ tabs.length := by
      have := congrArg List.length hL
      simp at this
      omega
    obtain ⟨r, h1, h2⟩ := closeAllTabsLoop_idents pre.length tabs hlen
    refine ⟨r, ?_, ?_⟩
    · show closeAllTabsExceptCurrentLoop (pre.length + 1) (pre.length : Int) tabs = some r
      simp only [closeAllTabsExceptCurrentLoop, ne_eq, not_true_eq_false, if_false]
      rw [exceptLoop_eq_allLoop _ _ _ (le_refl _)]
      exact h1
    · rw [h2, hL]
      simp
  | succ j ih =>
    have hjlt : j < post.length := hj
    have hx : (tabs.map Tab.ident)[pre.length + 1 + j]? = some post[j] := by
      rw [hL, List.getElem?_append_right (by omega)]
      have : pre.length + 1 + j - pre.length = j + 1 := by omega
      rw [this]
      simp [List.getElem?_eq_getElem hjlt]
    obtain ⟨r1, h1, h2⟩ := closeTab_idents tabs (pre.length + 1 + j) _ hx
    have hL1 : r1.map Tab.ident =
        pre ++ c :: (if staysOpen post[j] = true then post else post.eraseIdx j) := by
      rw [h2, hL]
      by_cases hs : staysOpen post[j] = true
      · simp [hs]
      · simp only [hs, if_false]
        exact eraseIdx_append_cons pre c post j
    have hj1 : j ≤ (if staysOpen post[j] = true then post else post.eraseIdx j).length := by
      by_cases hs : staysOpen post[j] = true
      · simp [hs]
        omega
      · simp [hs, List.length_eraseIdx, hjlt]
        omega
    obtain ⟨r, h3, h4⟩ := ih r1 _ hL1 hj1
    refine ⟨r, ?_, ?_⟩
    · have hne : ((pre.length + 1 + j : Nat) : Int) ≠ (pre.length : Int) := by omega
      have hnlt : ¬ ((pre.length + 1 + j : Nat) : Int) < (pre.length : Int) := by omega
      show closeAllTabsExceptCurrentLoop (pre.length + 1 + j + 1) (pre.length : Int) tabs = some r
      simp only [closeAllTabsExceptCurrentLoop, hne, hnlt, ne_eq, not_false_eq_true, if_true,
        if_false, h1]
      exact h3
    · rw [h4, close_round staysOpen post j _ (List.getElem?_eq_getElem hjlt)]

theorem filter_take_all {α : Type} (keep : α → Bool) (L : List α) (n : Nat)
    (h : n = L.length) : (L.take n).filter keep ++ L.drop n = L.filter keep := by
  subst h
  simp

theorem closeAllTabs_idents (tabs : List Tab) :
    (closeAllTabs tabs).map (List.map Tab.ident) =
      some ((tabs.map Tab.ident).filter staysOpen) := by
  obtain ⟨r, h1, h2⟩ := closeAllTabsLoop_idents tabs.length tabs (le_refl _)
  unfold closeAllTabs
  rw [h1, Option.map_some', h2, filter_take_all staysOpen _ _ (by simp)]

theorem closeAllTabsExceptCurrent_idents (before : List Tab) (current : Tab) (after : List Tab) :
    (closeAllTabsExceptCurrent (before ++ current :: after) (before.length : Int)).map
        (List.map Tab.ident) =
      some ((before.map Tab.ident).filter staysOpen ++ current.ident ::
        (after.map Tab.ident).filter staysOpen) := by
  obtain ⟨r, h1, h2⟩ := exceptLoop_idents (after.map Tab.ident).length
    (before ++ current :: after) (before.map Tab.ident) current.ident (after.map Tab.ident)
    (by simp) (le_refl _)
  unfold closeAllTabsExceptCurrent
  have hlen : (before ++ current :: after).length =
      (before.map Tab.ident).length + 1 + (after.map Tab.ident).length := by
    simp
    omega
  have hcur : ((before.map Tab.ident).length : Int) = (before.length : Int) := by simp
  rw [hlen, ← hcur, h1, Option.map_some', h2, filter_take_all staysOpen _ _ rfl]

theorem eraseIdx_append_self {α : Type} (pre : List α) (c : α) (post : List α) :
    (pre ++ c :: post).eraseIdx pre.length = pre ++ post := by
  induction pre with
  | nil => rfl
  | cons a as ih => simp [List.eraseIdx, ih]

theorem getElem_ident_append (before : List Tab) (t : Tab) (after : List Tab) :
    ((before ++ t :: after).map Tab.ident)[before.length]? = some t.ident := by
  rw [List.getElem?_map, List.getElem?_append_right (le_refl _)]
  simp

theorem closeTab_of_staysOpen (tabs : List Tab) (index : Nat) (x : Nat × TabType)
    (hx : (tabs.map Tab.ident)[index]? = some x) (hs : staysOpen x = true) :
    closeTab tabs (index : Int) = some (false, tabs) := by
  unfold closeTab
  rw [tabType_of_getElem tabs index x hx]
  have h1 : x.2 ≠ TabType.Closable := by
    intro h
    simp [staysOpen, h] at hs
  have h2 : x.2 ≠ TabType.DownloadManager := by
    intro h
    simp [staysOpen, h] at hs
  simp [h1, h2]

theorem staysOpen_iff (x : Nat × TabType) :
    staysOpen x = true ↔ x.2 ≠ TabType.Closable ∧ x.2 ≠ TabType.DownloadManager := by
  simp [staysOpen]

end TabWidget

/-! ## Claims about the application icon badge and the tab widget -/

/-- C24: on a platform with the badge (`Q_OS_MAC` defined) `setNumber` sets the
badge label to the empty string for every number that is 0 or less, whatever
the setting; for a number above 0 it sets the label to the decimal text of the
number when the setting is on and to the empty string when it is off.  On a
platform without the badge `setNumber` does nothing and
`isApplicationIconBadgeActivated()` is false whatever the setting; with the
badge it is the setting. -/
theorem C24_badge_number (setting : Bool) (number : Int) :
    (number ≤ 0 → ApplicationIconBadge.setNumber true setting number = [""]) ∧
    (0 < number →
      ApplicationIconBadge.setNumber true true number = [OAuth2.QString.number number] ∧
      ApplicationIconBadge.setNumber true false number = [""]) ∧
    ApplicationIconBadge.setNumber true true 42 = ["42"] ∧
    ApplicationIconBadge.setNumber false setting number = [] ∧
    ApplicationIconBadge.isApplicationIconBadgeAvailable false = false ∧
    ApplicationIconBadge.isApplicationIconBadgeActivated false setting = false ∧
    ApplicationIconBadge.isApplicationIconBadgeActivated true setting = setting := by
  refine ⟨?_, ?_, by decide, rfl, rfl, rfl, ?_⟩
  · intro h
    have hn : ¬ number > 0 := by omega
    simp [ApplicationIconBadge.setNumber, hn]
  · intro h
    simp [ApplicationIconBadge.setNumber, h]
  · simp [ApplicationIconBadge.isApplicationIconBadgeActivated,
      ApplicationIconBadge.isApplicationIconBadgeAvailable]

/-- C29 fails on the code: `fixContentsAfterMove` is not symmetric.  After the
tab at position 2 was moved to position 1 (the contents at positions 1 and 2
still store 2 and 1), `fixContentsAfterMove(1, 2)` stores 1 and 2 there, but
`fixContentsAfterMove(2, 1)` stores only 1 at position 1 and leaves the stale 1
at position 2: `to` is computed as the greater of the new `from` and `to`,
which is `to` itself, so the loop runs once. -/
theorem C29_fixContentsAfterMove_not_symmetric :
    TabWidget.fixContentsAfterMove
      [⟨10, TabType.FeedReader, 0⟩, ⟨12, TabType.Closable, 2⟩, ⟨11, TabType.Closable, 1⟩,
        ⟨13, TabType.Closable, 3⟩] 1 2 =
      some [⟨10, TabType.FeedReader, 0⟩, ⟨12, TabType.Closable, 1⟩, ⟨11, TabType.Closable, 2⟩,
        ⟨13, TabType.Closable, 3⟩] ∧
    TabWidget.fixContentsAfterMove
      [⟨10, TabType.FeedReader, 0⟩, ⟨12, TabType.Closable, 2⟩, ⟨11, TabType.Closable, 1⟩,
        ⟨13, TabType.Closable, 3⟩] 2 1 =
      some [⟨10, TabType.FeedReader, 0⟩, ⟨12, TabType.Closable, 1⟩, ⟨11, TabType.Closable, 1⟩,
        ⟨13, TabType.Closable, 3⟩] := by
  decide

/-- C30: `closeTab(index)` returns true and takes the tab out exactly when its
type is `Closable` or `DownloadManager`; for a tab of any other type (the
`FeedReader` tab among them) it returns false and leaves the tabs as they are.
After `closeAllTabs()` the tabs left are the tabs of the other types, in
their order; after `closeAllTabsExceptCurrent()` they are the tab that was
current and the tabs of the other types, in their order.  Tabs are compared
by widget and type; the indices their contents store are renumbered by
`tabRemoved`. -/
theorem C30_closing_tabs (before : List Tab) (t : Tab) (after tabs : List Tab) :
    ((t.type = TabType.Closable ∨ t.type = TabType.DownloadManager) →
      (TabWidget.closeTab (before ++ t :: after) (before.length : Int)).map
          (fun r => (r.1, r.2.map Tab.ident)) =
        some (true, (before ++ after).map Tab.ident)) ∧
    (¬ (t.type = TabType.Closable ∨ t.type = TabType.DownloadManager) →
      TabWidget.closeTab (before ++ t :: after) (before.length : Int) =
        some (false, before ++ t :: after)) ∧
    (TabWidget.closeAllTabs tabs).map (List.map Tab.ident) =
      some ((tabs.map Tab.ident).filter
        (fun x => x.2 != TabType.Closable && x.2 != TabType.DownloadManager)) ∧
    (TabWidget.closeAllTabsExceptCurrent (before ++ t :: after) (before.length : Int)).map
        (List.map Tab.ident) =
      some ((before.map Tab.ident).filter
          (fun x => x.2 != TabType.Closable && x.2 != TabType.DownloadManager) ++
        t.ident ::
        (after.map Tab.ident).filter
          (fun x => x.2 != TabType.Closable && x.2 != TabType.DownloadManager)) := by
  have hx := TabWidget.getElem_ident_append before t after
  refine ⟨?_, ?_, TabWidget.closeAllTabs_idents tabs,
    TabWidget.closeAllTabsExceptCurrent_idents before t after⟩
  · intro htype
    obtain ⟨r, h1, h2⟩ := TabWidget.closeTab_idents _ _ _ hx
    have hs : TabWidget.staysOpen t.ident = false := by
      rcases htype with h | h <;> simp [TabWidget.staysOpen, Tab.ident, h]
    rw [h1, Option.map_some', h2, hs]
    simp only [Bool.not_false, Bool.false_eq_true, if_false, List.map_append]
    rw [List.map_append, List.map_cons] at *
    have hlen : (before.map Tab.ident).length = before.length := by simp
    rw [← hlen, TabWidget.eraseIdx_append_self]
  · intro htype
    apply TabWidget.closeTab_of_staysOpen _ _ _ hx
    rw [TabWidget.staysOpen_iff]
    exact ⟨fun h => htype (Or.inl h), fun h => htype (Or.inr h)⟩

end Gui
